import Mathlib

/-!
# Verification of the Ksenia Lares4 WebSocket protocol client

A shallow embedding of the protocol-client core of `homebridge-plugin-klares4`
(`src/websocket-client.ts`), together with theorems settling the frozen claims
about it.  JavaScript numbers that the code only ever uses as integers are
modelled as `Nat`/`Int` (with explicit `% 2^16` where 16-bit overflow matters
in the checksum); values produced by `parseInt`/`parseFloat` are modelled as
`Option Int`/`Option ℚ`, with `none` playing the role of `NaN`; JavaScript
strings appear either as Lean `String`s (device registry, commands) or, for
the checksum, as lists of UTF-16 code units (`List Nat`), which is the level
the source's `charCodeAt`-based encoder works at.  `Map` objects become
association lists with insert-or-replace semantics, and the side effects of
the client (messages sent, callbacks fired, timers started or cleared) are
reified as an explicit `Effect` trace.  Logging calls are omitted from the
traces except where a claim is about the fact that something is logged.
-/

set_option maxRecDepth 8000

namespace Klares4

/-! ## JavaScript string and number primitives -/

/-- ASCII uppercasing of a single character, as `String.prototype.toUpperCase`
acts on the ASCII range (the categories and state keywords handled by the
client are ASCII). -/
def jsToUpperChar (c : Char) : Char :=
  if 'a' ≤ c ∧ c ≤ 'z' then Char.ofNat (c.toNat - 32) else c

/-- `s.toUpperCase()` restricted to ASCII case mapping. -/
def jsToUpper (s : String) : String := String.mk (s.data.map jsToUpperChar)

/-- ASCII lowercasing of a single character. -/
def jsToLowerChar (c : Char) : Char :=
  if 'A' ≤ c ∧ c ≤ 'Z' then Char.ofNat (c.toNat + 32) else c

/-- `s.toLowerCase()` restricted to ASCII case mapping. -/
def jsToLower (s : String) : String := String.mk (s.data.map jsToLowerChar)

/-- Decimal digit test. -/
def isAsciiDigit (c : Char) : Bool := decide ('0' ≤ c) && decide (c ≤ '9')

/-- Value of the maximal leading run of decimal digits; `none` when the run is
empty (which makes `parseInt` return `NaN`). -/
def leadingNatValue (cs : List Char) : Option Nat :=
  let ds := cs.takeWhile isAsciiDigit
  if ds.isEmpty then none
  else some (ds.foldl (fun a c => a * 10 + (c.toNat - 48)) 0)

/-- JavaScript whitespace skipped by `parseInt`/`parseFloat`. -/
def isJsSpace (c : Char) : Bool := c == ' ' || c == '\t' || c == '\n' || c == '\r'

/-- `parseInt(s, 10)`: skip whitespace, optional sign, then the longest run of
decimal digits; `none` models `NaN`. -/
def jsParseInt (s : String) : Option Int :=
  let cs := s.data.dropWhile isJsSpace
  match cs with
  | '-' :: rest => (leadingNatValue rest).map (fun n => -(n : Int))
  | '+' :: rest => (leadingNatValue rest).map (fun n => (n : Int))
  | rest => (leadingNatValue rest).map (fun n => (n : Int))

/-- `parseFloat(s)` on plain decimal notation (sign, integer digits, optional
fractional digits — exponents never occur in the panel's temperature fields);
`none` models `NaN`. -/
def jsParseFloat (s : String) : Option ℚ :=
  let cs := s.data.dropWhile isJsSpace
  let signAndRest : ℚ × List Char :=
    match cs with
    | '-' :: rest => (-1, rest)
    | '+' :: rest => (1, rest)
    | rest => (1, rest)
  let intDs := signAndRest.2.takeWhile isAsciiDigit
  let afterInt := signAndRest.2.dropWhile isAsciiDigit
  let fracDs : List Char :=
    match afterInt with
    | '.' :: rest => rest.takeWhile isAsciiDigit
    | _ => []
  if intDs.isEmpty && fracDs.isEmpty then none
  else
    let ip : Nat := intDs.foldl (fun a c => a * 10 + (c.toNat - 48)) 0
    let fp : Nat := fracDs.foldl (fun a c => a * 10 + (c.toNat - 48)) 0
    some (signAndRest.1 * ((ip : ℚ) + (fp : ℚ) / (10 : ℚ) ^ fracDs.length))

/-- `s.includes(pat)`: substring containment. -/
def jsIncludes (s pat : String) : Bool :=
  (List.range (s.data.length + 1)).any (fun i => pat.data.isPrefixOf (s.data.drop i))

/-! ## Device model (`src/types.ts`) -/

/-- The discriminant of the `KseniaDevice` union. -/
inductive DeviceType where
  | light | cover | thermostat | sensor | zone | scenario
deriving DecidableEq, Repr

/-- The `sensorType` discriminant of `SensorStatus`. -/
inductive SensorKind where
  | temperature | humidity | light | motion | contact
deriving DecidableEq, Repr

/-- Motion state of a cover. -/
inductive CoverMotion where
  | stopped | opening | closing
deriving DecidableEq, Repr

/-- Thermostat operating mode. -/
inductive ThermoMode where
  | off | heat | cool | auto
deriving DecidableEq, Repr

structure LightStatus where
  isOn : Bool        -- TS field name: `on` (a Lean keyword)
  brightness : Option Int := none
  dimmable : Bool
deriving DecidableEq, Repr

structure CoverStatus where
  position : Option Int
  targetPosition : Option Int := none
  state : CoverMotion
deriving DecidableEq, Repr

structure ThermostatStatus where
  currentTemperature : Option ℚ := none
  targetTemperature : Option ℚ := none
  mode : ThermoMode := .off
  humidity : Option ℚ := none
deriving DecidableEq, Repr

structure SensorStatus where
  sensorType : SensorKind
  value : Option ℚ
  unit : Option String := none
deriving DecidableEq, Repr

structure ZoneStatus where
  armed : Bool
  bypassed : Bool
  fault : Bool
  isOpen : Bool      -- TS field name: `open` (a Lean keyword)
deriving DecidableEq, Repr

structure ScenarioStatus where
  active : Bool
deriving DecidableEq, Repr

/-- Kind-specific status record of a device. -/
inductive DeviceStatus where
  | light (s : LightStatus)
  | cover (s : CoverStatus)
  | thermostat (s : ThermostatStatus)
  | sensor (s : SensorStatus)
  | zone (s : ZoneStatus)
  | scenario (s : ScenarioStatus)
deriving DecidableEq, Repr

/-- A discovered device (`KseniaDevice`). -/
structure Device where
  id : String
  type : DeviceType
  name : String
  description : String
  status : DeviceStatus
deriving DecidableEq, Repr

/-! ## Raw wire records (`src/types.ts`) -/

structure KseniaZoneData where
  ID : String
  DES : String
  TYPE : String := ""
  STATUS : String := ""
  ENABLED : String := ""
deriving DecidableEq, Repr

structure KseniaOutputData where
  ID : String
  DES : String
  TYPE : String := ""
  STATUS : String := ""
  ENABLED : String := ""
  POS : Option String := none
  CAT : Option String := none
  MOD : Option String := none
deriving DecidableEq, Repr

structure KseniaScenarioData where
  ID : String
  DES : String
  CAT : Option String := none
  ENABLED : Option String := none
deriving DecidableEq, Repr

structure KseniaBusHaData where
  ID : String
  DES : String
  TYPE : Option String := none
  ENABLED : Option String := none
deriving DecidableEq, Repr

structure KseniaOutputStatusRaw where
  ID : String
  STA : String
  POS : Option String := none
  TPOS : Option String := none
  TEMP_CURRENT : Option String := none
  TEMP_TARGET : Option String := none
  MODE : Option String := none
deriving DecidableEq, Repr

structure DomusData where
  TEM : Option String := none
  HUM : Option String := none
  LHT : Option String := none
deriving DecidableEq, Repr

structure KseniaSensorStatusRaw where
  ID : String
  DOMUS : Option DomusData := none
deriving DecidableEq, Repr

structure KseniaZoneStatusRaw where
  ID : String
  STA : String
  BYP : Option String := none
  A : Option String := none
  FM : Option String := none
deriving DecidableEq, Repr

/-! ## The device registry (`private readonly devices: Map<string, KseniaDevice>`) -/

/-- `Map.get`: the value bound to the first (and only) matching key. -/
def mapGet : List (String × Device) → String → Option Device
  | [], _ => none
  | p :: m, k => if p.1 = k then some p.2 else mapGet m k

/-- `Map.has`. -/
def mapHasKey : List (String × Device) → String → Bool
  | [], _ => false
  | p :: m, k => p.1 == k || mapHasKey m k

/-- `Map.set`: replace the binding in place when the key exists, otherwise
append (JavaScript `Map` preserves insertion order). -/
def mapSet (m : List (String × Device)) (k : String) (v : Device) : List (String × Device) :=
  if mapHasKey m k then m.map (fun p => if p.1 = k then (k, v) else p)
  else m ++ [(k, v)]

/-! ## Client state and effect traces

The mutable fields of `KseniaWebSocketClient`, together with the constructor
configuration.  `wsExists` models `this.ws !== undefined`, `wsOpen` models
`this.ws.readyState === WebSocket.OPEN`.  `heartbeatInterval` and
`reconnectInterval` hold the effective option values (the constructor merges
defaults `30000` and `5000` into `this.options`). -/
structure ClientState where
  wsExists : Bool
  wsOpen : Bool
  isConnected : Bool
  idLogin : Option String
  pin : String
  sender : String
  heartbeatTimerActive : Bool
  heartbeatPending : Bool
  lastPongReceived : Int
  reconnectAttempts : Nat
  heartbeatInterval : Nat := 30000
  reconnectInterval : Nat := 5000
  devices : List (String × Device)
deriving DecidableEq, Repr

/-- An outbound command payload (`KseniaCommandPayload`): every field is
optional, `none` meaning the property is absent/undefined. -/
structure CmdPayload where
  ID_LOGIN : Option String := none
  PIN : Option String := none
  ID_ITEMS_RANGE : Option (List String) := none
  TYPES : Option (List String) := none
  OUTPUT : Option (String × String) := none   -- { ID, STA }
  ID_THERMOSTAT : Option String := none
  MODE : Option String := none
  TARGET_TEMP : Option String := none
  SCENARIO_ID : Option String := none         -- SCENARIO: { ID }
deriving DecidableEq, Repr

/-- Observable side effects of the client, in the order they happen. -/
inductive Effect where
  | sendCmd (cmd payloadType : String) (payload : CmdPayload)
  | deviceDiscovered (d : Device)
  | deviceStatusUpdate (d : Device)
  | logError (msg : String)
  | startedHeartbeat
  | sentPing
  | terminatedSocket     -- `ws.terminate()`: forced close, no close handshake
  | closedSocket         -- `ws.close()`: graceful close
  | notifiedDisconnected
  | scheduledReconnect
deriving DecidableEq, Repr

/-- Payload of an inbound message, with the fields the handlers read. -/
structure MsgPayload where
  RESULT : Option String := none
  RESULT_DETAIL : Option String := none
  ID_LOGIN : Option String := none
  ZONES : Option (List KseniaZoneData) := none
  OUTPUTS : Option (List KseniaOutputData) := none
  SCENARIOS : Option (List KseniaScenarioData) := none
  BUS_HAS : Option (List KseniaBusHaData) := none
  STATUS_OUTPUTS : Option (List KseniaOutputStatusRaw) := none
  STATUS_BUS_HA_SENSORS : Option (List KseniaSensorStatusRaw) := none
  STATUS_ZONES : Option (List KseniaZoneStatusRaw) := none
deriving DecidableEq, Repr

/-- An inbound protocol envelope (`KseniaMessage`), at the level the message
handlers consume it. -/
structure Msg where
  SENDER : String := ""
  RECEIVER : String := ""
  CMD : String
  ID : String := ""
  PAYLOAD_TYPE : String := ""
  PAYLOAD : MsgPayload
  TIMESTAMP : String := ""
  CRC16 : String := ""
deriving DecidableEq, Repr

/-- Run a per-record handler over a list, threading the state and
concatenating the effect traces (a `forEach` loop). -/
def processList {α : Type} (f : ClientState → α → ClientState × List Effect) :
    ClientState → List α → ClientState × List Effect
  | st, [] => (st, [])
  | st, x :: xs =>
    let r := f st x
    let rest := processList f r.1 xs
    (rest.1, r.2 ++ rest.2)

/-! ## Discovery parsers (`parseZoneData`, `parseOutputData`,
`parseScenarioData`, `determineOutputType`) -/

def parseZoneData (z : KseniaZoneData) : Device :=
  { id := "zone_" ++ z.ID
    type := .zone
    name := if z.DES = "" then "Zone " ++ z.ID else z.DES
    description := z.DES
    status := .zone
      { armed := z.STATUS == "1"
        bypassed := false
        fault := false
        isOpen := z.STATUS == "2" } }

/-- `output.CAT ?? output.TYPE ?? ''` (`TYPE` is a non-nullable string, so the
final `?? ''` can only ever see a string). -/
def outputCategory (o : KseniaOutputData) : String :=
  match o.CAT with
  | some c => c
  | none => o.TYPE

def parseOutputData (o : KseniaOutputData) : Option Device :=
  let categoryUpper := jsToUpper (outputCategory o)
  if categoryUpper = "LIGHT" then
    some { id := "light_" ++ o.ID
           type := .light
           name := if o.DES = "" then "Light " ++ o.ID else o.DES
           description := o.DES
           status := .light { isOn := false, brightness := none, dimmable := false } }
  else if categoryUpper = "ROLL" then
    some { id := "cover_" ++ o.ID
           type := .cover
           name := if o.DES = "" then "Cover " ++ o.ID else o.DES
           description := o.DES
           status := .cover { position := some 0, state := .stopped } }
  else if categoryUpper = "GATE" then
    some { id := "cover_" ++ o.ID
           type := .cover
           name := if o.DES = "" then "Gate " ++ o.ID else o.DES
           description := o.DES
           status := .cover { position := some 0, state := .stopped } }
  else none

def parseScenarioData (sc : KseniaScenarioData) : Device :=
  { id := "scenario_" ++ sc.ID
    type := .scenario
    name := if sc.DES = "" then "Scenario " ++ sc.ID else sc.DES
    description := sc.DES
    status := .scenario { active := false } }

def determineOutputType (category : String) : DeviceType :=
  let catUpper := jsToUpper category
  if catUpper = "ROLL" then .cover
  else if catUpper = "LIGHT" then .light
  else if catUpper = "GATE" then .cover
  else if jsIncludes catUpper "THERM" || jsIncludes catUpper "CLIMA" ||
      jsIncludes catUpper "TEMP" || jsIncludes catUpper "RISCALD" ||
      jsIncludes catUpper "RAFFRES" || jsIncludes catUpper "HVAC" ||
      jsIncludes catUpper "TERMOS" then .thermostat
  else .light

/-! ## Discovery application (`handleReadResponse`, lines 317–411) -/

/-- Body of the `ZONES` forEach (lines 319–323). -/
def discoverZone (st : ClientState) (z : KseniaZoneData) : ClientState × List Effect :=
  let d := parseZoneData z
  ({ st with devices := mapSet st.devices d.id d }, [.deviceDiscovered d])

/-- Body of the `OUTPUTS` forEach (lines 329–344): a device is stored and
announced only when `parseOutputData` recognises the category. -/
def discoverOutput (st : ClientState) (o : KseniaOutputData) : ClientState × List Effect :=
  match parseOutputData o with
  | some d => ({ st with devices := mapSet st.devices d.id d }, [.deviceDiscovered d])
  | none => (st, [])

/-- Body of the `SCENARIOS` forEach (lines 349–360): ARM/DISARM scenarios are
filtered out. -/
def discoverScenario (st : ClientState) (sc : KseniaScenarioData) : ClientState × List Effect :=
  if sc.CAT == some "ARM" || sc.CAT == some "DISARM" then (st, [])
  else
    let d := parseScenarioData sc
    ({ st with devices := mapSet st.devices d.id d }, [.deviceDiscovered d])

/-- `sensor.DES || `Sensor ${sensor.ID}``: the shared name stem of the three
fanned-out sensor devices. -/
def baseNameOf (sensor : KseniaBusHaData) : String :=
  if sensor.DES = "" then "Sensor " ++ sensor.ID else sensor.DES

/-- The `sensorType` of a sensor device. -/
def sensorKindOf (d : Device) : Option SensorKind :=
  match d.status with
  | .sensor ss => some ss.sensorType
  | _ => none

/-- Body of the `BUS_HAS` forEach (lines 365–409): one bus-sensor record fans
out into a temperature, a humidity and a light-level sensor device. -/
def discoverBusHa (st : ClientState) (sensor : KseniaBusHaData) : ClientState × List Effect :=
  let baseName := baseNameOf sensor
  let tempDevice : Device :=
    { id := "sensor_temp_" ++ sensor.ID
      type := .sensor
      name := baseName ++ " - Temperatura"
      description := baseName ++ " - Temperatura"
      status := .sensor { sensorType := .temperature, value := some 0, unit := some "C" } }
  let st1 := { st with devices := mapSet st.devices tempDevice.id tempDevice }
  let humDevice : Device :=
    { id := "sensor_hum_" ++ sensor.ID
      type := .sensor
      name := baseName ++ " - Umidita"
      description := baseName ++ " - Umidita"
      status := .sensor { sensorType := .humidity, value := some 50, unit := some "%" } }
  let st2 := { st1 with devices := mapSet st1.devices humDevice.id humDevice }
  let lightDevice : Device :=
    { id := "sensor_light_" ++ sensor.ID
      type := .sensor
      name := baseName ++ " - Luminosita"
      description := baseName ++ " - Luminosita"
      status := .sensor { sensorType := .light, value := some 100, unit := some "lux" } }
  let st3 := { st2 with devices := mapSet st2.devices lightDevice.id lightDevice }
  (st3, [.deviceDiscovered tempDevice, .deviceDiscovered humDevice,
         .deviceDiscovered lightDevice])

/-- The `MULTI_TYPES` branch of `handleReadResponse` (lines 326–411):
outputs, then scenarios, then bus sensors. -/
def handleReadMultiTypes (st : ClientState) (p : MsgPayload) : ClientState × List Effect :=
  let r1 := match p.OUTPUTS with
    | some os => processList discoverOutput st os
    | none => (st, [])
  let r2 := match p.SCENARIOS with
    | some scs => processList discoverScenario r1.1 scs
    | none => (r1.1, [])
  let r3 := match p.BUS_HAS with
    | some bs => processList discoverBusHa r2.1 bs
    | none => (r2.1, [])
  (r3.1, r1.2 ++ r2.2 ++ r3.2)

/-! ## Cover and thermostat status mapping (`mapCoverPosition`,
`mapCoverState`, `mapThermostatMode`) -/

/-- The `switch (sta?.toUpperCase())` fallback of `mapCoverPosition`. -/
def coverPositionFromSta (sta : String) : Option Int :=
  let s := jsToUpper sta
  if s = "OPEN" ∨ s = "UP" then some 100
  else if s = "CLOSE" ∨ s = "DOWN" then some 0
  else if s = "STOP" then some 50
  else some 0

def mapCoverPosition (sta : String) (pos : Option String) : Option Int :=
  match pos with
  | some p => if p = "" then coverPositionFromSta sta else jsParseInt p
  | none => coverPositionFromSta sta

/-- The `switch (sta?.toUpperCase())` fallback of `mapCoverState`: the `STOP`
case and the `default` case both return `stopped`. -/
def coverStateFromSta (sta : String) : CoverMotion :=
  let s := jsToUpper sta
  if s = "UP" ∨ s = "OPEN" then .opening
  else if s = "DOWN" ∨ s = "CLOSE" then .closing
  else .stopped

/-- Lines 769–798.  When both positions are present they are compared after
`parseInt`; a `NaN` on either side (modelled `none`) makes both the equality
and the `<` comparison false in JavaScript, so the final `else` yields
`closing`. -/
def mapCoverState (sta : String) (pos tpos : Option String) : CoverMotion :=
  match pos, tpos with
  | some p, some t =>
    match jsParseInt p, jsParseInt t with
    | some currentPos, some targetPos =>
      if currentPos = targetPos then .stopped
      else if currentPos < targetPos then .opening
      else .closing
    | _, _ => .closing
  | _, _ => coverStateFromSta sta

def mapThermostatMode (mode : String) : ThermoMode :=
  let s := jsToLower mode
  if s = "heat" ∨ s = "heating" ∨ s = "riscaldamento" then .heat
  else if s = "cool" ∨ s = "cooling" ∨ s = "raffreddamento" then .cool
  else if s = "auto" ∨ s = "automatic" ∨ s = "automatico" then .auto
  else .off

/-! ## Status-delta application (`updateOutputStatuses`,
`updateSensorStatuses`, `updateZoneStatuses`) -/

/-- The light mutation of the output-status loop (lines 602–617). -/
def updateLightFromOutput (d : Device) (o : KseniaOutputStatusRaw) : Device :=
  match d.status with
  | .light ls =>
    let ls1 := { ls with isOn := o.STA == "ON" }
    let ls2 := match o.POS with
      | some p => { ls1 with brightness := jsParseInt p, dimmable := true }
      | none => ls1
    { d with status := .light ls2 }
  | _ => d

/-- The cover mutation of the output-status loop (lines 619–634). -/
def updateCoverFromOutput (d : Device) (o : KseniaOutputStatusRaw) : Device :=
  match d.status with
  | .cover cs =>
    let cs2 : CoverStatus :=
      { cs with
        position := mapCoverPosition o.STA o.POS
        targetPosition := jsParseInt (o.TPOS.getD (o.POS.getD "0"))
        state := mapCoverState o.STA o.POS o.TPOS }
    { d with status := .cover cs2 }
  | _ => d

/-- The thermostat mutation of the output-status loop (lines 636–676); the
returned flag is the `updated` variable deciding whether a status-update
callback fires. -/
def updateThermoFromOutput (d : Device) (o : KseniaOutputStatusRaw) : Device × Bool :=
  match d.status with
  | .thermostat ts =>
    let s1 := match o.TEMP_CURRENT with
      | some v =>
        ({ ts with currentTemperature := jsParseFloat v },
         decide (ts.currentTemperature ≠ jsParseFloat v))
      | none => (ts, false)
    let s2 := match o.TEMP_TARGET with
      | some v =>
        ({ s1.1 with targetTemperature := jsParseFloat v },
         s1.2 || decide (s1.1.targetTemperature ≠ jsParseFloat v))
      | none => s1
    let s3 := match o.MODE with
      | some v =>
        ({ s2.1 with mode := mapThermostatMode v },
         s2.2 || decide (s2.1.mode ≠ mapThermostatMode v))
      | none => s2
    ({ d with status := .thermostat s3.1 }, s3.2)
  | _ => (d, false)

/-- Body of the `updateOutputStatuses` forEach (lines 597–677): the delta is
joined against `light_<id>`, `cover_<id>` and `thermostat_<id>` in turn; a
delta whose identifier matches no device falls through every branch. -/
def updateOneOutputStatus (st : ClientState) (o : KseniaOutputStatusRaw) :
    ClientState × List Effect :=
  let r1 : ClientState × List Effect :=
    match mapGet st.devices ("light_" ++ o.ID) with
    | some d =>
      if d.type = DeviceType.light then
        let d2 := updateLightFromOutput d o
        ({ st with devices := mapSet st.devices ("light_" ++ o.ID) d2 },
         [.deviceStatusUpdate d2])
      else (st, [])
    | none => (st, [])
  let r2 : ClientState × List Effect :=
    match mapGet r1.1.devices ("cover_" ++ o.ID) with
    | some d =>
      if d.type = DeviceType.cover then
        let d2 := updateCoverFromOutput d o
        ({ r1.1 with devices := mapSet r1.1.devices ("cover_" ++ o.ID) d2 },
         r1.2 ++ [.deviceStatusUpdate d2])
      else r1
    | none => r1
  match mapGet r2.1.devices ("thermostat_" ++ o.ID) with
  | some d =>
    if d.type = DeviceType.thermostat then
      let du := updateThermoFromOutput d o
      ({ r2.1 with devices := mapSet r2.1.devices ("thermostat_" ++ o.ID) du.1 },
       r2.2 ++ if du.2 then [.deviceStatusUpdate du.1] else [])
    else r2
  | none => r2

def updateOutputStatuses (st : ClientState) (outputs : List KseniaOutputStatusRaw) :
    ClientState × List Effect :=
  processList updateOneOutputStatus st outputs

/-- Replace a sensor device's reading. -/
def setSensorValue (d : Device) (v : Option ℚ) : Device :=
  match d.status with
  | .sensor ss => { d with status := .sensor { ss with value := v } }
  | _ => d

/-- Body of the `updateSensorStatuses` forEach (lines 681–723): nothing
happens without a `DOMUS` record; otherwise the three fanned-out sensor
devices are looked up and updated independently. -/
def updateOneSensorStatus (st : ClientState) (srec : KseniaSensorStatusRaw) :
    ClientState × List Effect :=
  match srec.DOMUS with
  | none => (st, [])
  | some dom =>
    let r1 : ClientState × List Effect :=
      match mapGet st.devices ("sensor_temp_" ++ srec.ID) with
      | some d =>
        if d.type = DeviceType.sensor then
          let d2 := setSensorValue d (jsParseFloat (dom.TEM.getD "0"))
          ({ st with devices := mapSet st.devices ("sensor_temp_" ++ srec.ID) d2 },
           [.deviceStatusUpdate d2])
        else (st, [])
      | none => (st, [])
    let r2 : ClientState × List Effect :=
      match mapGet r1.1.devices ("sensor_hum_" ++ srec.ID) with
      | some d =>
        if d.type = DeviceType.sensor then
          let d2 := setSensorValue d ((jsParseInt (dom.HUM.getD "50")).map (fun i => (i : ℚ)))
          ({ r1.1 with devices := mapSet r1.1.devices ("sensor_hum_" ++ srec.ID) d2 },
           r1.2 ++ [.deviceStatusUpdate d2])
        else r1
      | none => r1
    match mapGet r2.1.devices ("sensor_light_" ++ srec.ID) with
    | some d =>
      if d.type = DeviceType.sensor then
        let d2 := setSensorValue d ((jsParseInt (dom.LHT.getD "100")).map (fun i => (i : ℚ)))
        ({ r2.1 with devices := mapSet r2.1.devices ("sensor_light_" ++ srec.ID) d2 },
         r2.2 ++ [.deviceStatusUpdate d2])
      else r2
    | none => r2

def updateSensorStatuses (st : ClientState) (sensors : List KseniaSensorStatusRaw) :
    ClientState × List Effect :=
  processList updateOneSensorStatus st sensors

/-- Body of the `updateZoneStatuses` forEach (lines 727–747). -/
def updateOneZoneStatus (st : ClientState) (z : KseniaZoneStatusRaw) :
    ClientState × List Effect :=
  match mapGet st.devices ("zone_" ++ z.ID) with
  | some d =>
    if d.type = DeviceType.zone then
      let d2 := match d.status with
        | .zone zs =>
          let zs2 : ZoneStatus :=
            { zs with
              isOpen := z.STA == "A"
              bypassed := z.BYP == some "YES"
              armed := z.A == some "Y"
              fault := z.FM == some "T" }
          { d with status := .zone zs2 }
        | _ => d
      ({ st with devices := mapSet st.devices ("zone_" ++ z.ID) d2 },
       [.deviceStatusUpdate d2])
    else (st, [])
  | none => (st, [])

def updateZoneStatuses (st : ClientState) (zones : List KseniaZoneStatusRaw) :
    ClientState × List Effect :=
  processList updateOneZoneStatus st zones

/-! ## Outbound commands (`buildPayload`, `sendKseniaCommand`,
`requestSystemData`) -/

/-- Lines 956–962: payload fields holding the sentinel string `'true'` are
rewritten with the live session credentials; every other field is spread
through unchanged. -/
def buildPayload (st : ClientState) (p : CmdPayload) : CmdPayload :=
  { p with
    ID_LOGIN := if p.ID_LOGIN = some "true" then st.idLogin else p.ID_LOGIN
    PIN := if p.PIN = some "true" then some st.pin else p.PIN }

/-- Lines 912–954: throws (`Except.error`) synchronously when the socket is
missing or not open; otherwise the envelope is built and written out.  The
envelope framing and checksum are modelled separately (see the checksum
section); the effect records the command, payload type and processed
payload. -/
def sendKseniaCommand (st : ClientState) (cmd payloadType : String) (p : CmdPayload) :
    Except String Effect :=
  if st.wsExists ∧ st.wsOpen then
    .ok (.sendCmd cmd payloadType (buildPayload st p))
  else
    .error "WebSocket not connected"

/-- Lines 270–310: the discovery sweep.  Each `await`ed send can throw, in
which case the later sends are not issued and the error propagates to the
caller's `.catch`. -/
def requestSystemData (st : ClientState) : Except String (List Effect) :=
  match st.idLogin with
  | none => .ok []    -- logs `ID_LOGIN not available` and returns
  | some idL => do
    let e1 ← sendKseniaCommand st "READ" "ZONES"
      { ID_LOGIN := some idL, ID_ITEMS_RANGE := some ["ALL", "ALL"] }
    let e2 ← sendKseniaCommand st "READ" "MULTI_TYPES"
      { ID_LOGIN := some idL, TYPES := some ["OUTPUTS", "BUS_HAS", "SCENARIOS"] }
    let e3 ← sendKseniaCommand st "READ" "STATUS_OUTPUTS" { ID_LOGIN := some idL }
    let e4 ← sendKseniaCommand st "READ" "STATUS_BUS_HA_SENSORS" { ID_LOGIN := some idL }
    let e5 ← sendKseniaCommand st "READ" "STATUS_SYSTEM" { ID_LOGIN := some idL }
    let e6 ← sendKseniaCommand st "REALTIME" "REGISTER"
      { ID_LOGIN := some idL
        TYPES := some ["STATUS_ZONES", "STATUS_OUTPUTS", "STATUS_BUS_HA_SENSORS",
                       "STATUS_SYSTEM", "SCENARIOS"] }
    pure [e1, e2, e3, e4, e5, e6]

/-! ## Heartbeat (`startHeartbeat`, heartbeat tick, `forceReconnect`, pong) -/

/-- Lines 1027–1034: (re)arm the heartbeat interval and reset the probe
bookkeeping; `now` is `Date.now()`. -/
def startHeartbeat (st : ClientState) (now : Int) : ClientState :=
  { st with
    lastPongReceived := now
    heartbeatPending := false
    heartbeatTimerActive := true }

/-- Lines 1067–1083: heartbeat-timeout recovery.  The probe flag is cleared,
the heartbeat interval is cleared (so the tick cannot fire again), the socket
is terminated without a close handshake, and a reconnect is scheduled
immediately. -/
def forceReconnect (st : ClientState) : ClientState × List Effect :=
  ({ st with
      heartbeatPending := false
      heartbeatTimerActive := false
      isConnected := false
      wsOpen := false },
   (if st.wsExists then [Effect.terminatedSocket] else []) ++
     [.notifiedDisconnected, .scheduledReconnect])

/-- One firing of the `setInterval` callback of lines 1035–1064.  A cleared
interval (`heartbeatTimerActive = false`) never fires, which we model as a
silent no-op. -/
def heartbeatTick (st : ClientState) (now : Int) : ClientState × List Effect :=
  if st.heartbeatTimerActive = false then (st, [])
  else if st.isConnected ∧ st.wsExists then
    if st.heartbeatPending ∧
        now - st.lastPongReceived > (st.heartbeatInterval : Int) * 2 then
      forceReconnect st
    else
      ({ st with heartbeatPending := true }, [.sentPing])
  else (st, [])

/-- Lines 170–176: the native `'pong'` listener clears the pending flag and
records the timestamp unconditionally. -/
def handlePong (st : ClientState) (now : Int) : ClientState :=
  { st with heartbeatPending := false, lastPongReceived := now }

/-! ## Login response (`handleLoginResponse`, lines 254–268) -/

def handleLoginResponse (st : ClientState) (now : Int) (m : Msg) :
    ClientState × List Effect :=
  if m.PAYLOAD.RESULT = some "OK" then
    let st1 := { st with idLogin := some (m.PAYLOAD.ID_LOGIN.getD "1") }
    let st2 := startHeartbeat st1 now
    match requestSystemData st2 with
    | .ok es => (st2, Effect.startedHeartbeat :: es)
    | .error e =>
      (st2, [Effect.startedHeartbeat,
             .logError ("Error requesting system data: " ++ e)])
  else
    (st, [.logError ("Login failed: " ++ m.PAYLOAD.RESULT_DETAIL.getD "Unknown error")])

/-- The commands carried by an effect trace. -/
def sentCommands (es : List Effect) : List (String × String) :=
  es.filterMap (fun e =>
    match e with
    | .sendCmd c t _ => some (c, t)
    | _ => none)

/-! ## Reconnect scheduling (`scheduleReconnect`, lines 1085–1121) -/

/-- `Math.round`, which is `floor(x + 1/2)` (also for negative arguments). -/
def jsRound (q : ℚ) : ℤ := ⌊q + 1 / 2⌋

/-- `Math.min(baseDelay * Math.pow(2, attempts), maxReconnectDelay)`. -/
def exponentialDelay (base : ℚ) (attempts : Nat) (cap : ℚ) : ℚ :=
  min (base * 2 ^ attempts) cap

/-- The scheduled delay: the exponential delay jittered by
`delay * 0.1 * (r * 2 - 1)` where `r` is the `Math.random()` draw, rounded to
the nearest millisecond. -/
def reconnectDelay (base cap : ℚ) (attempts : Nat) (r : ℚ) : ℤ :=
  let e := exponentialDelay base attempts cap
  jsRound (e + e * (1 / 10) * (2 * r - 1))

/-- Start of the reconnect timer callback (line 1105): the attempts counter
increments before `connect()` is invoked. -/
def reconnectTimerFired (st : ClientState) : ClientState :=
  { st with reconnectAttempts := st.reconnectAttempts + 1 }

/-- The `'open'` handler (lines 142–151) followed by the `connect()` promise
resolving inside the reconnect timer's `.then` (lines 1107–1112): the socket
is open, `isConnected` is set, and the counter is reset to zero
(line 1110).  `connect()` resolves as soon as `login()` does, and `login()`
resolves once the LOGIN frame has been *sent* (lines 183–201) — it does not
wait for LOGIN_RES, which needs a network round trip — so this reset
strictly precedes `handleLoginResponse`, and `idLogin` (assigned only there,
on an OK result) is untouched here: authentication has not completed at the
moment the counter is reset. -/
def connectOpenResolved (st : ClientState) : ClientState :=
  { st with
      wsExists := true
      wsOpen := true
      isConnected := true
      reconnectAttempts := 0 }

/-- The `connect()` promise rejecting (lines 1113–1119): the counter is left
unchanged and `scheduleReconnect` is invoked again. -/
def connectRejected (st : ClientState) : ClientState := st

/-! ## Checksum (`calculateCRC16`, lines 975–1025)

The source computes the checksum over the string produced by
`JSON.stringify` of the envelope with the sentinel value `'0x0000'` in its
`CRC_16` field (lines 194–197 and 934–937), working on the string's UTF-16
code units via `charCodeAt`.  We model that serialized string as a
`List Nat` of code units. -/

/-- The hand-rolled UTF-8 encoder of lines 976–1000, on UTF-16 code units.
Bitwise operations on values within each branch's range are written
arithmetically (`x >> 6` is `x / 64`; `0x80 | (x & 0x3f)` is `0x80 + x % 64`,
the OR operands having disjoint bits).  The surrogate-pair branch reproduces
the source faithfully, including its `charCodeAt(i) & 0x3f` (rather than
`& 0x3ff`) masking of the low surrogate, so supplementary-plane characters
are mis-encoded.  `charCodeAt` past the end of the string yields `NaN`, and
`NaN & 0x3f` is `0`, hence the `0` for a dangling final high surrogate. -/
def jsUtf8Encode : List Nat → List Nat
  | [] => []
  | c :: rest =>
    if c < 0x80 then c :: jsUtf8Encode rest
    else if c < 0x800 then
      (0xc0 + c / 0x40) :: (0x80 + c % 0x40) :: jsUtf8Encode rest
    else if c < 0xd800 ∨ 0xe000 ≤ c then
      (0xe0 + c / 0x1000) :: (0x80 + c / 0x40 % 0x40) :: (0x80 + c % 0x40) ::
        jsUtf8Encode rest
    else
      match rest with
      | [] =>
        let s := 0x10000 + (c % 0x400) * 0x400
        [0xf0 + s / 0x40000, 0x80 + s / 0x1000 % 0x40, 0x80 + s / 0x40 % 0x40,
         0x80 + s % 0x40]
      | d :: rest2 =>
        let s := 0x10000 + (c % 0x400) * 0x400 + d % 0x40
        (0xf0 + s / 0x40000) :: (0x80 + s / 0x1000 % 0x40) ::
          (0x80 + s / 0x40 % 0x40) :: (0x80 + s % 0x40) :: jsUtf8Encode rest2

/-- The constant `CRC_16 = '"CRC_16"'` (line 1004) as code units. -/
def crcLabel : List Nat := [34, 67, 82, 67, 95, 49, 54, 34]

/-- `String.prototype.lastIndexOf`: start index of the last occurrence of
`pat` in `s`, `-1` when there is none. -/
def jsLastIndexOf (s pat : List Nat) : Int :=
  match ((List.range (s.length + 1)).filter
      (fun i => pat.isPrefixOf (s.drop i))).getLast? with
  | some i => (i : Int)
  | none => -1

/-- The weights `0x80, 0x40, …, 1` traversed by the inner
`for (iCrc = 0x80; iCrc; iCrc >>= 1)` loop. -/
def crcBitWeights : List Nat := [128, 64, 32, 16, 8, 4, 2, 1]

/-- One iteration of the inner bit loop (lines 1011–1021): `flagCrc` is bit
15 of the register (`crc & 0x8000 ? 1 : 0`, written `crc / 0x8000 % 2`); the
register shifts left within 16 bits (`crc <<= 1; crc &= 0xffff`, written
`crc * 2 % 2^16`); the message bit `charCode & iCrc` (bit `log2 iCrc`,
written `charCode / iCrc % 2` for these power-of-two weights) increments the
low end; and the generator polynomial is XORed in when a set bit was shifted
out. -/
def crcCodeBit (charCode crc iCrc : Nat) : Nat :=
  let flagCrc := crc / 0x8000 % 2
  let c1 := crc * 2 % 0x10000
  let c2 := if charCode / iCrc % 2 ≠ 0 then c1 + 1 else c1
  if flagCrc = 1 then c2 ^^^ 0x1021 else c2

/-- The inner bit loop over one byte. -/
def crcCodeByte (crc charCode : Nat) : Nat :=
  crcBitWeights.foldl (fun c w => crcCodeBit charCode c w) crc

/-- `padStart(4, '0')` on a digit list (it never truncates). -/
def padStart4 (l : List Char) : List Char :=
  List.replicate (4 - l.length) '0' ++ l

/-- `crc.toString(16).padStart(4, '0')`: minimal lowercase hexadecimal
digits, left-padded with `'0'` to four characters (line 1024). -/
def hexRender (n : Nat) : String := String.mk (padStart4 (Nat.toDigits 16 n))

/-- `calculateCRC16` (lines 975–1025): encode the serialized string to
(JavaScript-style) UTF-8, stop the CRC at
`lastIndexOf('"CRC_16"') + 8 + (utf8.length - jsonString.length)` — the
code-unit offset just past the checksum key label, shifted by the multi-byte
surplus of the whole string — seed the register with 0xFFFF, process the
bytes MSB-first with polynomial 0x1021, and render `'0x'` plus four lowercase
hex digits.  Indexing `utf8[i]` past the end yields `undefined` in the
source, and `undefined & iCrc` is `0`, which `getD i 0` reproduces. -/
def calculateCRC16 (s : List Nat) : String :=
  let utf8 := jsUtf8Encode s
  let dataLen : Int := jsLastIndexOf s crcLabel + (crcLabel.length : Int) +
    ((utf8.length : Int) - (s.length : Int))
  let data := (List.range dataLen.toNat).map (fun i => utf8.getD i 0)
  let crc := data.foldl crcCodeByte 0xffff
  "0x" ++ hexRender crc

/-! ### The checksum the specification describes

Reference definitions following the specification's words (§4.1: CRC-16
XMODEM-style CCITT, seed 0xFFFF, polynomial 0x1021, MSB-first, over the UTF-8
byte encoding of the serialized message truncated just after the checksum
key label), against which `calculateCRC16` is compared. -/

/-- Standard UTF-8 encoding of one code point (RFC 3629). -/
def utf8Bytes (cp : Nat) : List Nat :=
  if cp < 0x80 then [cp]
  else if cp < 0x800 then
    [0xc0 + cp / 0x40, 0x80 + cp % 0x40]
  else if cp < 0x10000 then
    [0xe0 + cp / 0x1000, 0x80 + cp / 0x40 % 0x40, 0x80 + cp % 0x40]
  else
    [0xf0 + cp / 0x40000, 0x80 + cp / 0x1000 % 0x40, 0x80 + cp / 0x40 % 0x40,
     0x80 + cp % 0x40]

/-- UTF-8 encoding of a sequence of scalar values; on surrogate-free BMP
code-unit sequences this is the string's true UTF-8 encoding. -/
def stdUtf8 (units : List Nat) : List Nat := units.flatMap utf8Bytes

/-- Decode UTF-16 code units to code points, combining well-formed surrogate
pairs (an unpaired surrogate, which `JSON.stringify` never emits, passes
through). -/
def utf16Decode : List Nat → List Nat
  | [] => []
  | [c] => [c]
  | c :: d :: rest =>
    if 0xd800 ≤ c ∧ c < 0xdc00 then
      if 0xdc00 ≤ d ∧ d < 0xe000 then
        (0x10000 + (c - 0xd800) * 0x400 + (d - 0xdc00)) :: utf16Decode rest
      else c :: utf16Decode (d :: rest)
    else c :: utf16Decode (d :: rest)

/-- The true UTF-8 byte encoding of a UTF-16 code-unit sequence. -/
def trueUtf8 (units : List Nat) : List Nat := stdUtf8 (utf16Decode units)

/-- Bits of a byte, most significant first (the weights enumerate
`2^7 … 2^0`). -/
def byteBits (b : Nat) : List Nat := crcBitWeights.map (fun w => b / w % 2)

/-- One step of the CRC-16/CCITT (XMODEM-style) linear feedback shift
register with polynomial 0x1021: shift left one bit, feed the next message
bit into the low end, and XOR the polynomial in exactly when the shifted-out
bit was set. -/
def crcSpecStep (crc b : Nat) : Nat :=
  if 0x8000 ≤ crc then ((crc - 0x8000) * 2 + b) ^^^ 0x1021
  else crc * 2 + b

/-- CRC-16/CCITT of a byte sequence: seed 0xFFFF, polynomial 0x1021, message
bits fed MSB-first. -/
def crc16ccitt (bytes : List Nat) : Nat :=
  (bytes.flatMap byteBits).foldl crcSpecStep 0xffff

/-- The lowercase hexadecimal alphabet. -/
def hexDigitsList : List Char := "0123456789abcdef".data

/-! ## Concrete fixtures used by witnesses and counterexamples -/

/-- Code units of an ASCII Lean string (for ASCII, code units and code points
coincide). -/
def strUnits (s : String) : List Nat := s.data.map Char.toNat

/-- Serialization of a concrete LOGIN envelope (sentinel checksum present),
split just before its `"CRC_16"` key: everything before the key… -/
def envPre : List Nat :=
  strUnits "\x7b\"SENDER\":\"homebridge\",\"RECEIVER\":\"\",\"CMD\":\"LOGIN\",\"ID\":\"123\",\"PAYLOAD_TYPE\":\"UNKNOWN\",\"PAYLOAD\":\x7b\"PIN\":\"1234\"\x7d,\"TIMESTAMP\":\"1700000000\","

/-- …and the sentinel value and closing brace after the key. -/
def envSuf : List Nat := strUnits ":\"0x0000\"\x7d"

/-- The same envelope prefix with the emoji U+1F600 (UTF-16 surrogate pair
`D83D DE00`) inside the sender name. -/
def envPreEmoji : List Nat :=
  strUnits "\x7b\"SENDER\":\"homebridge" ++ [0xd83d, 0xde00] ++
    strUnits "\",\"RECEIVER\":\"\",\"CMD\":\"LOGIN\",\"ID\":\"123\",\"PAYLOAD_TYPE\":\"UNKNOWN\",\"PAYLOAD\":\x7b\"PIN\":\"1234\"\x7d,\"TIMESTAMP\":\"1700000000\","

/-- A ready, authenticated client with an open socket and an empty device
registry. -/
def stReady : ClientState :=
  { wsExists := true
    wsOpen := true
    isConnected := true
    idLogin := some "99"
    pin := "1234"
    sender := "homebridge"
    heartbeatTimerActive := true
    heartbeatPending := false
    lastPongReceived := 0
    reconnectAttempts := 0
    devices := [] }

/-- The same client after its socket dropped out of the OPEN state. -/
def stClosed : ClientState := { stReady with wsOpen := false }

/-- A client mid-backoff: three retries already scheduled, never
authenticated (no session token has ever been stored). -/
def stRetrying : ClientState :=
  { wsExists := false
    wsOpen := false
    isConnected := false
    idLogin := none
    pin := "1234"
    sender := "homebridge"
    heartbeatTimerActive := false
    heartbeatPending := false
    lastPongReceived := 0
    reconnectAttempts := 3
    devices := [] }

/-- The ready client with a probe outstanding. -/
def stProbePending : ClientState := { stReady with heartbeatPending := true }

/-- A LOGIN response with an OK result. -/
def msgLoginOk : Msg :=
  { CMD := "LOGIN_RES", PAYLOAD := { RESULT := some "OK", ID_LOGIN := some "77" } }

/-- A LOGIN response rejecting the credentials. -/
def msgLoginFail : Msg :=
  { CMD := "LOGIN_RES"
    PAYLOAD := { RESULT := some "KO", RESULT_DETAIL := some "WRONG_PIN" } }

/-- A command payload carrying the sentinel credential markers. -/
def pSentinel : CmdPayload :=
  { ID_LOGIN := some "true", PIN := some "true", OUTPUT := some ("5", "ON") }

/-- An outputs discovery record the classifier recognises as
thermostat-like. -/
def oTherm : KseniaOutputData := { ID := "7", DES := "Caldaia", CAT := some "THERM" }

/-- An outputs discovery record with the LIGHT category. -/
def oLight : KseniaOutputData := { ID := "3", DES := "Lampada", CAT := some "light" }

/-! # Theorems -/

/-! ## Registry lemmas -/

theorem mapGet_of_not_hasKey (k : String) :
    ∀ (m : List (String × Device)), mapHasKey m k = false → mapGet m k = none := by
  intro m
  induction m with
  | nil => intro _; rfl
  | cons p m ih =>
    intro h
    simp only [mapHasKey, Bool.or_eq_false_iff, beq_eq_false_iff_ne] at h
    simp [mapGet, h.1, ih h.2]

theorem mapGet_append (k : String) (m1 m2 : List (String × Device)) :
    mapGet (m1 ++ m2) k = (mapGet m1 k).or (mapGet m2 k) := by
  induction m1 with
  | nil => simp [mapGet]
  | cons p m ih =>
    by_cases hp : p.1 = k <;> simp [mapGet, hp, ih]

theorem mapGet_mapSet_self (m : List (String × Device)) (k : String) (v : Device) :
    mapGet (mapSet m k v) k = some v := by
  unfold mapSet
  split
  · rename_i hsome
    induction m with
    | nil => simp [mapHasKey] at hsome
    | cons p m ih =>
      by_cases hp : p.1 = k
      · simp [mapGet, hp]
      · have hm : mapHasKey m k = true := by
          simpa [mapHasKey, hp] using hsome
        simp [mapGet, hp, ih hm]
  · rename_i hnone
    rw [mapGet_append, mapGet_of_not_hasKey k m (by simpa using hnone)]
    simp [mapGet]

theorem mapGet_mapSet_ne (m : List (String × Device)) (k k2 : String) (v : Device)
    (h : k2 ≠ k) : mapGet (mapSet m k v) k2 = mapGet m k2 := by
  unfold mapSet
  split
  · rename_i hsome
    clear hsome
    induction m with
    | nil => simp [mapGet]
    | cons p m ih =>
      by_cases hp : p.1 = k
      · simp [mapGet, hp, Ne.symm h, ih]
      · by_cases hq : p.1 = k2 <;> simp [mapGet, hp, hq, h, Ne.symm h, ih]
  · rw [mapGet_append]
    cases hm : mapGet m k2 with
    | some q => simp
    | none => simp [mapGet, Ne.symm h]

/-- Every effect produced by a `forEach` loop comes from the handler applied
to some list element. -/
theorem processList_mem {α : Type} (f : ClientState → α → ClientState × List Effect) :
    ∀ (xs : List α) (st : ClientState) (e : Effect),
      e ∈ (processList f st xs).2 → ∃ st2 x, x ∈ xs ∧ e ∈ (f st2 x).2 := by
  intro xs
  induction xs with
  | nil => intro st e h; simp [processList] at h
  | cons x xs ih =>
    intro st e h
    simp only [processList, List.mem_append] at h
    rcases h with h | h
    · exact ⟨st, x, by simp, h⟩
    · obtain ⟨st2, y, hy, he⟩ := ih _ e h
      exact ⟨st2, y, by simp [hy], he⟩

/-! ## C3 — authentication failure is terminal -/

/-- **C3.**  When a LOGIN response carries a non-OK result, the handler
returns the state unchanged (no session token stored, heartbeat untouched,
no discovery), its entire effect trace is a single error log (so nothing is
sent and no reconnect or retry is scheduled by the handler), and the failure
is reported through that log. -/
theorem loginFailure_terminal (st : ClientState) (now : Int) (m : Msg)
    (hfail : m.PAYLOAD.RESULT ≠ some "OK") :
    (handleLoginResponse st now m).1 = st
    ∧ (handleLoginResponse st now m).2 =
        [.logError ("Login failed: " ++ m.PAYLOAD.RESULT_DETAIL.getD "Unknown error")]
    ∧ sentCommands (handleLoginResponse st now m).2 = []
    ∧ Effect.startedHeartbeat ∉ (handleLoginResponse st now m).2
    ∧ Effect.scheduledReconnect ∉ (handleLoginResponse st now m).2 := by
  simp [handleLoginResponse, hfail, sentCommands]

theorem loginFailure_terminal_witness :
    (handleLoginResponse stReady 0 msgLoginFail).1 = stReady
    ∧ (handleLoginResponse stReady 0 msgLoginFail).2 =
        [.logError ("Login failed: " ++
          msgLoginFail.PAYLOAD.RESULT_DETAIL.getD "Unknown error")]
    ∧ sentCommands (handleLoginResponse stReady 0 msgLoginFail).2 = []
    ∧ Effect.startedHeartbeat ∉ (handleLoginResponse stReady 0 msgLoginFail).2
    ∧ Effect.scheduledReconnect ∉ (handleLoginResponse stReady 0 msgLoginFail).2 :=
  loginFailure_terminal stReady 0 msgLoginFail (by decide)

/-! ## C4 — status deltas for unknown identifiers are silent no-ops -/

/-- **C4.**  A status delta whose derived identifier matches no device in the
registry is a silent no-op for all three delta kinds: the state (in
particular the registry) is returned unchanged, and the empty effect trace
shows that no device is created and no status-update callback fires (the
functions are total, so nothing is thrown). -/
theorem unknownDelta_noop :
    (∀ (st : ClientState) (o : KseniaOutputStatusRaw),
      mapGet st.devices ("light_" ++ o.ID) = none →
      mapGet st.devices ("cover_" ++ o.ID) = none →
      mapGet st.devices ("thermostat_" ++ o.ID) = none →
      updateOneOutputStatus st o = (st, []))
    ∧ (∀ (st : ClientState) (srec : KseniaSensorStatusRaw),
      mapGet st.devices ("sensor_temp_" ++ srec.ID) = none →
      mapGet st.devices ("sensor_hum_" ++ srec.ID) = none →
      mapGet st.devices ("sensor_light_" ++ srec.ID) = none →
      updateOneSensorStatus st srec = (st, []))
    ∧ (∀ (st : ClientState) (z : KseniaZoneStatusRaw),
      mapGet st.devices ("zone_" ++ z.ID) = none →
      updateOneZoneStatus st z = (st, [])) := by
  refine ⟨?_, ?_, ?_⟩
  · intro st o h1 h2 h3
    simp [updateOneOutputStatus, h1, h2, h3]
  · intro st srec h1 h2 h3
    cases hd : srec.DOMUS <;> simp [updateOneSensorStatus, hd, h1, h2, h3]
  · intro st z h1
    simp [updateOneZoneStatus, h1]

theorem unknownDelta_noop_witness :
    updateOneOutputStatus stReady { ID := "42", STA := "ON" } = (stReady, [])
    ∧ updateOneSensorStatus stReady
        { ID := "42", DOMUS := some { TEM := some "21.5" } } = (stReady, [])
    ∧ updateOneZoneStatus stReady { ID := "42", STA := "A" } = (stReady, []) := by
  obtain ⟨h1, h2, h3⟩ := unknownDelta_noop
  exact ⟨h1 stReady _ rfl rfl rfl, h2 stReady _ rfl rfl rfl, h3 stReady _ rfl⟩

/-! ## C9 — sentinel credential substitution and not-connected rejection -/

/-- **C9.**  `buildPayload` rewrites exactly the fields carrying the
`'true'` sentinel — the login-id field with the live session token and the
PIN field with the configured secret — passing every other field through
unchanged, and `sendKseniaCommand` rejects synchronously with an error when
the socket is missing or not open (nothing is enqueued: the error is the
only outcome). -/
theorem credentialSubstitution :
    (∀ (st : ClientState) (p : CmdPayload) (tok : String),
      st.idLogin = some tok → p.ID_LOGIN = some "true" →
      (buildPayload st p).ID_LOGIN = some tok)
    ∧ (∀ (st : ClientState) (p : CmdPayload), p.PIN = some "true" →
      (buildPayload st p).PIN = some st.pin)
    ∧ (∀ (st : ClientState) (p : CmdPayload), p.ID_LOGIN ≠ some "true" →
      (buildPayload st p).ID_LOGIN = p.ID_LOGIN)
    ∧ (∀ (st : ClientState) (p : CmdPayload), p.PIN ≠ some "true" →
      (buildPayload st p).PIN = p.PIN)
    ∧ (∀ (st : ClientState) (p : CmdPayload),
      (buildPayload st p).ID_ITEMS_RANGE = p.ID_ITEMS_RANGE
      ∧ (buildPayload st p).TYPES = p.TYPES
      ∧ (buildPayload st p).OUTPUT = p.OUTPUT
      ∧ (buildPayload st p).ID_THERMOSTAT = p.ID_THERMOSTAT
      ∧ (buildPayload st p).MODE = p.MODE
      ∧ (buildPayload st p).TARGET_TEMP = p.TARGET_TEMP
      ∧ (buildPayload st p).SCENARIO_ID = p.SCENARIO_ID)
    ∧ (∀ (st : ClientState) (cmd payloadType : String) (p : CmdPayload),
      ¬(st.wsExists = true ∧ st.wsOpen = true) →
      sendKseniaCommand st cmd payloadType p = .error "WebSocket not connected") := by
  refine ⟨?_, ?_, ?_, ?_, ?_, ?_⟩ <;> intros <;>
    simp_all [buildPayload, sendKseniaCommand]

theorem credentialSubstitution_witness :
    (buildPayload stReady pSentinel).ID_LOGIN = some "99"
    ∧ (buildPayload stReady pSentinel).PIN = some stReady.pin
    ∧ (buildPayload stReady pSentinel).OUTPUT = pSentinel.OUTPUT
    ∧ sendKseniaCommand stClosed "CMD_USR" "CMD_SET_OUTPUT" pSentinel =
        .error "WebSocket not connected" := by
  obtain ⟨h1, h2, -, -, h5, h6⟩ := credentialSubstitution
  exact ⟨h1 stReady pSentinel "99" rfl rfl, h2 stReady pSentinel rfl,
    (h5 stReady pSentinel).2.2.1,
    h6 stClosed "CMD_USR" "CMD_SET_OUTPUT" pSentinel (by decide)⟩

/-! ## C2 — the post-login discovery sequence -/

/-- **C2 (counterexample).**  At a concrete ready state, a LOGIN response
with an OK result triggers a discovery sequence of six requests, not the
five the claim describes (the claim's list omits the read-output-statuses
request). -/
theorem discoverySequence_not_five :
    (sentCommands (handleLoginResponse stReady 0 msgLoginOk).2).length ≠ 5 := by
  decide

/-- **C2 (amended).**  Every time authentication succeeds (LOGIN response
with an OK result) while the socket is open, the client stores the session
token and then unconditionally issues the discovery sequence in a fixed
order of six requests: read zones, read multi-type outputs, read output
statuses, read sensor bus statuses, read system status, then register for
real-time change notifications. -/
theorem discoverySequence (st : ClientState) (now : Int) (m : Msg)
    (hws : st.wsExists = true) (hopen : st.wsOpen = true)
    (hok : m.PAYLOAD.RESULT = some "OK") :
    (handleLoginResponse st now m).1.idLogin = some (m.PAYLOAD.ID_LOGIN.getD "1")
    ∧ sentCommands (handleLoginResponse st now m).2 =
      [("READ", "ZONES"), ("READ", "MULTI_TYPES"), ("READ", "STATUS_OUTPUTS"),
       ("READ", "STATUS_BUS_HA_SENSORS"), ("READ", "STATUS_SYSTEM"),
       ("REALTIME", "REGISTER")] := by
  simp [handleLoginResponse, hok, startHeartbeat, requestSystemData,
        sendKseniaCommand, hws, hopen, sentCommands, Except.bind, bind,
        pure, Except.pure]

theorem discoverySequence_witness :
    (handleLoginResponse stReady 0 msgLoginOk).1.idLogin = some "77"
    ∧ sentCommands (handleLoginResponse stReady 0 msgLoginOk).2 =
      [("READ", "ZONES"), ("READ", "MULTI_TYPES"), ("READ", "STATUS_OUTPUTS"),
       ("READ", "STATUS_BUS_HA_SENSORS"), ("READ", "STATUS_SYSTEM"),
       ("REALTIME", "REGISTER")] := by
  have h := discoverySequence stReady 0 msgLoginOk rfl rfl rfl
  simpa using h

/-! ## C5 — cover motion-state derivation -/

/-- **C5.**  When both positions are present and numeric, the motion state is
derived by comparison (equal → stopped, current &lt; target → opening,
current &gt; target → closing); when the position is absent, the keyword
fallback applies: UP/OPEN → opening, DOWN/CLOSE → closing, anything else →
stopped. -/
theorem coverState_mapping :
    (∀ (sta p t : String) (cp tp : Int),
      jsParseInt p = some cp → jsParseInt t = some tp →
      mapCoverState sta (some p) (some t) =
        (if cp = tp then CoverMotion.stopped
         else if cp < tp then CoverMotion.opening
         else CoverMotion.closing))
    ∧ (∀ (sta : String) (tpos : Option String),
        jsToUpper sta = "UP" ∨ jsToUpper sta = "OPEN" →
        mapCoverState sta none tpos = .opening)
    ∧ (∀ (sta : String) (tpos : Option String),
        jsToUpper sta = "DOWN" ∨ jsToUpper sta = "CLOSE" →
        mapCoverState sta none tpos = .closing)
    ∧ (∀ (sta : String) (tpos : Option String),
        jsToUpper sta ≠ "UP" → jsToUpper sta ≠ "OPEN" →
        jsToUpper sta ≠ "DOWN" → jsToUpper sta ≠ "CLOSE" →
        mapCoverState sta none tpos = .stopped) := by
  refine ⟨?_, ?_, ?_, ?_⟩
  · intro sta p t cp tp hp ht
    simp [mapCoverState, hp, ht]
  · intro sta tpos hsta
    cases tpos <;> simp [mapCoverState, coverStateFromSta] <;>
      rcases hsta with h | h <;> simp [h]
  · intro sta tpos hsta
    cases tpos <;> simp [mapCoverState, coverStateFromSta] <;>
      rcases hsta with h | h <;> simp [h]
  · intro sta tpos h1 h2 h3 h4
    cases tpos <;> simp [mapCoverState, coverStateFromSta, h1, h2, h3, h4]

/-- The specification's own test vectors, plus a keyword-fallback case. -/
theorem coverState_mapping_witness :
    mapCoverState "MOVING" (some "30") (some "30") = CoverMotion.stopped
    ∧ mapCoverState "MOVING" (some "20") (some "80") = CoverMotion.opening
    ∧ mapCoverState "MOVING" (some "80") (some "20") = CoverMotion.closing
    ∧ mapCoverState "up" none none = CoverMotion.opening
    ∧ mapCoverState "halt" none none = CoverMotion.stopped := by
  obtain ⟨hnum, hup, -, hstop⟩ := coverState_mapping
  refine ⟨?_, ?_, ?_, ?_, ?_⟩
  · simpa using hnum "MOVING" "30" "30" 30 30 (by decide) (by decide)
  · simpa using hnum "MOVING" "20" "80" 20 80 (by decide) (by decide)
  · simpa using hnum "MOVING" "80" "20" 80 20 (by decide) (by decide)
  · exact hup "up" none (by decide)
  · exact hstop "halt" none (by decide) (by decide) (by decide) (by decide)

/-! ## C6 — bus-sensor fan-out -/

/-- **C6.**  Applying discovery to one bus-sensor record produces exactly
three sensor devices with distinct identifiers `sensor_temp_<id>`,
`sensor_hum_<id>`, `sensor_light_<id>`, sensor kinds temperature, humidity
and light, names sharing the record's name stem; each of the three is
emitted through the device-discovered callback and lands in the registry. -/
theorem busHa_fanout (st : ClientState) (s : KseniaBusHaData) :
    ∃ t h l : Device,
      (discoverBusHa st s).2 =
        [.deviceDiscovered t, .deviceDiscovered h, .deviceDiscovered l]
      ∧ t.id = "sensor_temp_" ++ s.ID
      ∧ h.id = "sensor_hum_" ++ s.ID
      ∧ l.id = "sensor_light_" ++ s.ID
      ∧ t.id ≠ h.id ∧ t.id ≠ l.id ∧ h.id ≠ l.id
      ∧ t.type = .sensor ∧ h.type = .sensor ∧ l.type = .sensor
      ∧ sensorKindOf t = some .temperature
      ∧ sensorKindOf h = some .humidity
      ∧ sensorKindOf l = some .light
      ∧ (∃ suffT, t.name = baseNameOf s ++ suffT)
      ∧ (∃ suffH, h.name = baseNameOf s ++ suffH)
      ∧ (∃ suffL, l.name = baseNameOf s ++ suffL)
      ∧ mapGet (discoverBusHa st s).1.devices t.id = some t
      ∧ mapGet (discoverBusHa st s).1.devices h.id = some h
      ∧ mapGet (discoverBusHa st s).1.devices l.id = some l := by
  have hth : ("sensor_temp_" ++ s.ID : String) ≠ "sensor_hum_" ++ s.ID := by
    intro he
    have := congrArg String.length he
    simp [String.length_append] at this
    exact absurd this (by decide)
  have htl : ("sensor_temp_" ++ s.ID : String) ≠ "sensor_light_" ++ s.ID := by
    intro he
    have := congrArg String.length he
    simp [String.length_append] at this
    exact absurd this (by decide)
  have hhl : ("sensor_hum_" ++ s.ID : String) ≠ "sensor_light_" ++ s.ID := by
    intro he
    have := congrArg String.length he
    simp [String.length_append] at this
    exact absurd this (by decide)
  refine ⟨_, _, _, rfl, rfl, rfl, rfl, hth, htl, hhl, rfl, rfl, rfl, rfl, rfl, rfl,
    ⟨" - Temperatura", rfl⟩, ⟨" - Umidita", rfl⟩, ⟨" - Luminosita", rfl⟩, ?_, ?_, ?_⟩
  · show mapGet (mapSet (mapSet (mapSet st.devices _ _) _ _) _ _) _ = _
    rw [mapGet_mapSet_ne _ _ _ _ htl, mapGet_mapSet_ne _ _ _ _ hth,
        mapGet_mapSet_self]
  · show mapGet (mapSet (mapSet (mapSet st.devices _ _) _ _) _ _) _ = _
    rw [mapGet_mapSet_ne _ _ _ _ hhl, mapGet_mapSet_self]
  · show mapGet (mapSet (mapSet (mapSet st.devices _ _) _ _) _ _) _ = _
    rw [mapGet_mapSet_self]

/-! ## C10 — outputs discovery creates devices only for LIGHT/ROLL/GATE -/

/-- **C10.**  An outputs discovery record yields a device iff its category
(CAT, falling back to TYPE, uppercased) is exactly LIGHT (a light), ROLL or
GATE (covers); in particular any category the classifier
`determineOutputType` recognises as thermostat-like yields no device, and no
effect emitted by outputs discovery ever announces a thermostat. -/
theorem outputDiscovery_filter :
    (∀ o : KseniaOutputData,
      (parseOutputData o).isSome ↔
        (jsToUpper (outputCategory o) = "LIGHT" ∨ jsToUpper (outputCategory o) = "ROLL"
          ∨ jsToUpper (outputCategory o) = "GATE"))
    ∧ (∀ o : KseniaOutputData, jsToUpper (outputCategory o) = "LIGHT" →
        ∃ d, parseOutputData o = some d ∧ d.type = .light ∧ d.id = "light_" ++ o.ID)
    ∧ (∀ o : KseniaOutputData,
        jsToUpper (outputCategory o) = "ROLL" ∨ jsToUpper (outputCategory o) = "GATE" →
        ∃ d, parseOutputData o = some d ∧ d.type = .cover ∧ d.id = "cover_" ++ o.ID)
    ∧ (∀ o : KseniaOutputData,
        determineOutputType (outputCategory o) = .thermostat → parseOutputData o = none)
    ∧ (∀ (st : ClientState) (os : List KseniaOutputData) (e : Effect),
        e ∈ (processList discoverOutput st os).2 →
        ∃ d, e = .deviceDiscovered d
          ∧ (d.type = DeviceType.light ∨ d.type = DeviceType.cover)
          ∧ d.type ≠ DeviceType.thermostat) := by
  have hsome : ∀ o : KseniaOutputData,
      (parseOutputData o).isSome ↔
        (jsToUpper (outputCategory o) = "LIGHT" ∨ jsToUpper (outputCategory o) = "ROLL"
          ∨ jsToUpper (outputCategory o) = "GATE") := by
    intro o
    by_cases hL : jsToUpper (outputCategory o) = "LIGHT"
    · simp [parseOutputData, hL]
    · by_cases hR : jsToUpper (outputCategory o) = "ROLL"
      · simp [parseOutputData, hL, hR]
      · by_cases hG : jsToUpper (outputCategory o) = "GATE" <;>
          simp [parseOutputData, hL, hR, hG]
  have hkind : ∀ (o : KseniaOutputData) (d : Device), parseOutputData o = some d →
      (d.type = DeviceType.light ∨ d.type = DeviceType.cover) := by
    intro o d hd
    by_cases hL : jsToUpper (outputCategory o) = "LIGHT"
    · simp [parseOutputData, hL] at hd
      subst hd
      exact Or.inl rfl
    · by_cases hR : jsToUpper (outputCategory o) = "ROLL"
      · simp [parseOutputData, hL, hR] at hd
        subst hd
        exact Or.inr rfl
      · by_cases hG : jsToUpper (outputCategory o) = "GATE"
        · simp [parseOutputData, hL, hR, hG] at hd
          subst hd
          exact Or.inr rfl
        · simp [parseOutputData, hL, hR, hG] at hd
  have hthermNe : ∀ c : String, determineOutputType c = DeviceType.thermostat →
      jsToUpper c ≠ "LIGHT" ∧ jsToUpper c ≠ "ROLL" ∧ jsToUpper c ≠ "GATE" := by
    intro c hth
    by_cases h1 : jsToUpper c = "ROLL"
    · simp [determineOutputType, h1] at hth
    · by_cases h2 : jsToUpper c = "LIGHT"
      · simp [determineOutputType, h1, h2] at hth
      · by_cases h3 : jsToUpper c = "GATE"
        · simp [determineOutputType, h1, h2, h3] at hth
        · exact ⟨h2, h1, h3⟩
  refine ⟨hsome, ?_, ?_, ?_, ?_⟩
  · intro o h1
    have hp : parseOutputData o =
        some { id := "light_" ++ o.ID, type := DeviceType.light,
               name := if o.DES = "" then "Light " ++ o.ID else o.DES,
               description := o.DES,
               status := .light { isOn := false, brightness := none, dimmable := false } } := by
      simp [parseOutputData, h1]
    exact ⟨_, hp, rfl, rfl⟩
  · intro o h1
    rcases h1 with h | h
    · have hl : jsToUpper (outputCategory o) ≠ "LIGHT" := by
        rw [h]; decide
      have hp : parseOutputData o =
          some { id := "cover_" ++ o.ID, type := DeviceType.cover,
                 name := if o.DES = "" then "Cover " ++ o.ID else o.DES,
                 description := o.DES,
                 status := .cover { position := some 0, state := .stopped } } := by
        simp [parseOutputData, hl, h]
      exact ⟨_, hp, rfl, rfl⟩
    · have hl : jsToUpper (outputCategory o) ≠ "LIGHT" := by
        rw [h]; decide
      have hr : jsToUpper (outputCategory o) ≠ "ROLL" := by
        rw [h]; decide
      have hp : parseOutputData o =
          some { id := "cover_" ++ o.ID, type := DeviceType.cover,
                 name := if o.DES = "" then "Gate " ++ o.ID else o.DES,
                 description := o.DES,
                 status := .cover { position := some 0, state := .stopped } } := by
        simp [parseOutputData, hl, hr, h]
      exact ⟨_, hp, rfl, rfl⟩
  · intro o htherm
    obtain ⟨n1, n2, n3⟩ := hthermNe _ htherm
    cases hp : parseOutputData o with
    | none => rfl
    | some d =>
      have := (hsome o).mp (by simp [hp])
      tauto
  · intro st os e he
    obtain ⟨st2, x, -, hx⟩ := processList_mem discoverOutput os st e he
    unfold discoverOutput at hx
    cases hp : parseOutputData x with
    | none => rw [hp] at hx; simp at hx
    | some d =>
      rw [hp] at hx
      simp at hx
      rcases hkind x d hp with h | h
      · exact ⟨d, hx, Or.inl h, by simp [h]⟩
      · exact ⟨d, hx, Or.inr h, by simp [h]⟩

theorem outputDiscovery_filter_witness :
    parseOutputData oTherm = none
    ∧ determineOutputType (outputCategory oTherm) = DeviceType.thermostat
    ∧ (∃ d, parseOutputData oLight = some d ∧ d.type = DeviceType.light
        ∧ d.id = "light_" ++ oLight.ID) := by
  obtain ⟨-, h2, -, h4, -⟩ := outputDiscovery_filter
  exact ⟨h4 oTherm (by decide), by decide, h2 oLight (by decide)⟩

/-! ## C7 — reconnect backoff -/

/-- Bounds for `Math.round(e + e * 0.1 * (2r - 1))` when the nominal delay
`e` is the integer `10 * m`. -/
theorem jsRound_jitter_bounds (m : ℤ) (r : ℚ) (hm : 0 ≤ m) (h0 : 0 ≤ r) (h1 : r < 1) :
    9 * (10 * m) ≤ 10 * jsRound ((10 * m : ℚ) + (10 * m : ℚ) * (1 / 10) * (2 * r - 1))
    ∧ 10 * jsRound ((10 * m : ℚ) + (10 * m : ℚ) * (1 / 10) * (2 * r - 1)) ≤
        11 * (10 * m) := by
  have hmq : (0 : ℚ) ≤ (m : ℚ) := by exact_mod_cast hm
  have hub : 2 * (m : ℚ) * r ≤ 2 * (m : ℚ) := by
    have h2 : (0 : ℚ) ≤ 2 * (m : ℚ) * (1 - r) :=
      mul_nonneg (by linarith) (by linarith)
    nlinarith [h2]
  have hlb : (0 : ℚ) ≤ 2 * (m : ℚ) * r := by positivity
  unfold jsRound
  set x : ℚ := (10 * m : ℚ) + (10 * m : ℚ) * (1 / 10) * (2 * r - 1) + 1 / 2 with hxdef
  have hxval : x = 9 * (m : ℚ) + 2 * (m : ℚ) * r + 1 / 2 := by
    rw [hxdef]; ring
  have hlow : (9 * m : ℤ) ≤ ⌊x⌋ := by
    apply Int.le_floor.mpr
    rw [hxval]
    push_cast
    linarith
  have hhigh : ⌊x⌋ < 11 * m + 1 := by
    apply Int.floor_lt.mpr
    rw [hxval]
    push_cast
    linarith
  constructor <;> omega

/-- Specialisation of the jitter bounds to a nominal delay known to be the
integer `10 * mz`. -/
theorem reconnectDelay_bounds (mz : ℤ) (a : Nat) (r : ℚ) (hmz : 0 ≤ mz)
    (he : exponentialDelay 5000 a 60000 = 10 * (mz : ℚ))
    (h0 : 0 ≤ r) (h1 : r < 1) :
    9 * exponentialDelay 5000 a 60000 ≤ 10 * ((reconnectDelay 5000 60000 a r : ℤ) : ℚ)
    ∧ 10 * ((reconnectDelay 5000 60000 a r : ℤ) : ℚ) ≤
        11 * exponentialDelay 5000 a 60000 := by
  have hb := jsRound_jitter_bounds mz r hmz h0 h1
  have hd : reconnectDelay 5000 60000 a r =
      jsRound ((10 * (mz : ℚ)) + (10 * (mz : ℚ)) * (1 / 10) * (2 * r - 1)) := by
    unfold reconnectDelay
    rw [he]
  rw [he, hd]
  constructor
  · exact_mod_cast hb.1
  · exact_mod_cast hb.2

/-- **C7 (counterexample).**  "The attempts counter … resets to zero only
after a connection reaches READY" is false of the program.  A client
mid-backoff (three attempts, never authenticated) has its counter reset to
zero by the connect-resolution step — socket open, LOGIN frame sent, no
session token yet — and when the panel then rejects the credentials, so
that this connection never reaches READY, the counter stays reset. -/
theorem backoffReset_counterexample :
    stRetrying.reconnectAttempts ≠ 0
    ∧ stRetrying.idLogin = none
    ∧ (connectOpenResolved stRetrying).reconnectAttempts = 0
    ∧ (connectOpenResolved stRetrying).idLogin = none
    ∧ ((handleLoginResponse (connectOpenResolved stRetrying) 0 msgLoginFail).1).reconnectAttempts = 0
    ∧ ((handleLoginResponse (connectOpenResolved stRetrying) 0 msgLoginFail).1).idLogin = none := by
  refine ⟨by decide, rfl, rfl, rfl, ?_, ?_⟩ <;> decide

/-- **C7 (amended).**  With base 5000 ms and cap 60000 ms, attempts 0–5 give
the nominal delays 5000, 10000, 20000, 40000, 60000, 60000; every scheduled
delay with jitter draw `r ∈ [0, 1)` lies within ±10 % of its nominal value
(stated as `9·nominal ≤ 10·delay ≤ 11·nominal`).  The attempts counter
increments on every retry firing, and it resets to zero when the `connect()`
call resolves — once the socket is open and the LOGIN request has been
sent — which precedes authentication completing: the connect-resolution
step leaves `idLogin` untouched, a rejected `connect()` leaves the counter
untouched, and the login-response handler (where READY is or is not
reached) never modifies the counter at all. -/
theorem reconnectBackoffAmended (a : Nat) (ha : a ≤ 5) (r : ℚ) (h0 : 0 ≤ r) (h1 : r < 1) :
    (List.range 6).map (fun i => exponentialDelay 5000 i 60000) =
      [5000, 10000, 20000, 40000, 60000, 60000]
    ∧ 9 * exponentialDelay 5000 a 60000 ≤
        10 * ((reconnectDelay 5000 60000 a r : ℤ) : ℚ)
    ∧ 10 * ((reconnectDelay 5000 60000 a r : ℤ) : ℚ) ≤
        11 * exponentialDelay 5000 a 60000
    ∧ (∀ st : ClientState,
        (reconnectTimerFired st).reconnectAttempts = st.reconnectAttempts + 1)
    ∧ (∀ st : ClientState,
        (connectOpenResolved st).reconnectAttempts = 0
        ∧ (connectOpenResolved st).idLogin = st.idLogin)
    ∧ (∀ st : ClientState,
        (connectRejected st).reconnectAttempts = st.reconnectAttempts)
    ∧ (∀ (st : ClientState) (now : Int) (m : Msg),
        (handleLoginResponse st now m).1.reconnectAttempts = st.reconnectAttempts) := by
  have hrange : (List.range 6).map (fun i => exponentialDelay 5000 i 60000) =
      [5000, 10000, 20000, 40000, 60000, 60000] := by
    have h6 : List.range 6 = [0, 1, 2, 3, 4, 5] := by decide
    rw [h6]
    simp only [List.map_cons, List.map_nil]
    norm_num [exponentialDelay, min_def]
  have hnum : 9 * exponentialDelay 5000 a 60000 ≤
        10 * ((reconnectDelay 5000 60000 a r : ℤ) : ℚ)
      ∧ 10 * ((reconnectDelay 5000 60000 a r : ℤ) : ℚ) ≤
        11 * exponentialDelay 5000 a 60000 := by
    interval_cases a
    · exact reconnectDelay_bounds 500 0 r (by norm_num)
        (by norm_num [exponentialDelay, min_def]) h0 h1
    · exact reconnectDelay_bounds 1000 1 r (by norm_num)
        (by norm_num [exponentialDelay, min_def]) h0 h1
    · exact reconnectDelay_bounds 2000 2 r (by norm_num)
        (by norm_num [exponentialDelay, min_def]) h0 h1
    · exact reconnectDelay_bounds 4000 3 r (by norm_num)
        (by norm_num [exponentialDelay, min_def]) h0 h1
    · exact reconnectDelay_bounds 6000 4 r (by norm_num)
        (by norm_num [exponentialDelay, min_def]) h0 h1
    · exact reconnectDelay_bounds 6000 5 r (by norm_num)
        (by norm_num [exponentialDelay, min_def]) h0 h1
  refine ⟨hrange, hnum.1, hnum.2, fun st => rfl, fun st => ⟨rfl, rfl⟩,
    fun st => rfl, ?_⟩
  intro st now m
  by_cases hok : m.PAYLOAD.RESULT = some "OK"
  · unfold handleLoginResponse
    rw [if_pos hok]
    dsimp only
    split <;> rfl
  · unfold handleLoginResponse
    rw [if_neg hok]

theorem reconnectBackoffAmended_witness :
    (List.range 6).map (fun i => exponentialDelay 5000 i 60000) =
      [5000, 10000, 20000, 40000, 60000, 60000]
    ∧ 9 * exponentialDelay 5000 2 60000 ≤
        10 * ((reconnectDelay 5000 60000 2 (1 / 4) : ℤ) : ℚ)
    ∧ 10 * ((reconnectDelay 5000 60000 2 (1 / 4) : ℤ) : ℚ) ≤
        11 * exponentialDelay 5000 2 60000
    ∧ (reconnectTimerFired stRetrying).reconnectAttempts =
        stRetrying.reconnectAttempts + 1
    ∧ (connectOpenResolved stRetrying).reconnectAttempts = 0 := by
  obtain ⟨h1, h2, h3, h4, h5, -, -⟩ :=
    reconnectBackoffAmended 2 (by norm_num) (1 / 4) (by norm_num) (by norm_num)
  exact ⟨h1, h2, h3, h4 stRetrying, (h5 stRetrying).1⟩

/-! ## C8 — heartbeat timeout -/

/-- **C8.**  When a probe is outstanding and no probe response has been
recorded for more than twice the configured heartbeat interval, the next
heartbeat tick performs the forced reconnect: the socket is terminated (no
graceful close), the heartbeat timer is stopped, and the reconnect scheduler
is invoked immediately; because the timer is stopped, a later tick is a
no-op, so the forced reconnect fires exactly once per timeout detection.
Every observed probe response clears the pending flag and records its
timestamp, unconditionally. -/
theorem heartbeatTimeout (st : ClientState) (now : Int)
    (hact : st.heartbeatTimerActive = true) (hconn : st.isConnected = true)
    (hws : st.wsExists = true) (hpend : st.heartbeatPending = true)
    (htimeout : now - st.lastPongReceived > (st.heartbeatInterval : Int) * 2) :
    heartbeatTick st now = forceReconnect st
    ∧ Effect.terminatedSocket ∈ (heartbeatTick st now).2
    ∧ Effect.scheduledReconnect ∈ (heartbeatTick st now).2
    ∧ Effect.closedSocket ∉ (heartbeatTick st now).2
    ∧ (heartbeatTick st now).1.heartbeatTimerActive = false
    ∧ (∀ later : Int,
        heartbeatTick (heartbeatTick st now).1 later = ((heartbeatTick st now).1, []))
    ∧ (∀ (st2 : ClientState) (t : Int),
        (handlePong st2 t).heartbeatPending = false
        ∧ (handlePong st2 t).lastPongReceived = t) := by
  have htick : heartbeatTick st now = forceReconnect st := by
    simp [heartbeatTick, hact, hconn, hws, hpend, htimeout]
  refine ⟨htick, ?_, ?_, ?_, ?_, ?_, fun st2 t => ⟨rfl, rfl⟩⟩ <;>
    rw [htick] <;> simp [forceReconnect, hws]
  intro later
  simp [heartbeatTick]

theorem heartbeatTimeout_witness :
    heartbeatTick stProbePending 60001 = forceReconnect stProbePending
    ∧ Effect.terminatedSocket ∈ (heartbeatTick stProbePending 60001).2
    ∧ Effect.scheduledReconnect ∈ (heartbeatTick stProbePending 60001).2
    ∧ Effect.closedSocket ∉ (heartbeatTick stProbePending 60001).2
    ∧ (heartbeatTick stProbePending 60001).1.heartbeatTimerActive = false
    ∧ heartbeatTick (heartbeatTick stProbePending 60001).1 90001 =
        ((heartbeatTick stProbePending 60001).1, [])
    ∧ (handlePong stProbePending 60001).heartbeatPending = false := by
  obtain ⟨h1, h2, h3, h4, h5, h6, h7⟩ :=
    heartbeatTimeout stProbePending 60001 rfl rfl rfl rfl (by decide)
  exact ⟨h1, h2, h3, h4, h5, h6 90001, (h7 stProbePending 60001).1⟩

/-! ## C1 — the transmitted checksum

Lemmas relating the client's encoder and CRC loop to the specification-side
definitions, leading to `checksumSpec` (the claim, amended to surrogate-free
envelopes) and `checksumSpec_counterexample` (the claim as stated fails on an
envelope containing a supplementary-plane character). -/

theorem utf8Bytes_length_pos (cp : Nat) : 1 ≤ (utf8Bytes cp).length := by
  unfold utf8Bytes
  split_ifs <;> simp

theorem stdUtf8_length_ge (us : List Nat) : us.length ≤ (stdUtf8 us).length := by
  induction us with
  | nil => simp [stdUtf8]
  | cons c rest ih =>
    have h1 := utf8Bytes_length_pos c
    simp only [stdUtf8, List.flatMap_cons, List.length_append, List.length_cons] at ih ⊢
    omega

theorem stdUtf8_append (us vs : List Nat) :
    stdUtf8 (us ++ vs) = stdUtf8 us ++ stdUtf8 vs := by
  simp [stdUtf8]

theorem stdUtf8_ascii : ∀ us : List Nat, (∀ c ∈ us, c < 128) → stdUtf8 us = us := by
  intro us
  induction us with
  | nil => intro _; rfl
  | cons c rest ih =>
    intro h
    have hc : c < 128 := h c (by simp)
    have h1 : utf8Bytes c = [c] := by simp [utf8Bytes, hc]
    have h2 : stdUtf8 rest = rest := ih (fun x hx => h x (by simp [hx]))
    calc (c :: rest).flatMap utf8Bytes
        = utf8Bytes c ++ rest.flatMap utf8Bytes := by simp
      _ = [c] ++ rest := by rw [h1]; exact congrArg _ h2
      _ = c :: rest := rfl

theorem jsUtf8Encode_eq_stdUtf8 :
    ∀ us : List Nat, (∀ c ∈ us, c < 65536 ∧ (c < 55296 ∨ 57344 ≤ c)) →
      jsUtf8Encode us = stdUtf8 us := by
  intro us
  induction us with
  | nil => intro _; rfl
  | cons c rest ih =>
    intro h
    obtain ⟨hc16, hcs⟩ := h c (by simp)
    have hrest : jsUtf8Encode rest = stdUtf8 rest :=
      ih (fun x hx => h x (by simp [hx]))
    cases rest with
    | nil =>
      by_cases h80 : c < 128
      · simp [jsUtf8Encode, stdUtf8, utf8Bytes, h80]
      · by_cases h800 : c < 2048
        · simp [jsUtf8Encode, stdUtf8, utf8Bytes, h80, h800]
        · simp [jsUtf8Encode, stdUtf8, utf8Bytes, h80, h800, hcs, hc16]
    | cons d rest2 =>
      by_cases h80 : c < 128
      · simp [jsUtf8Encode, stdUtf8, utf8Bytes, h80, hrest]
      · by_cases h800 : c < 2048
        · simp [jsUtf8Encode, stdUtf8, utf8Bytes, h80, h800, hrest]
        · simp [jsUtf8Encode, stdUtf8, utf8Bytes, h80, h800, hcs, hc16, hrest]

theorem getD_range_eq_take {α : Type} (l : List α) (d : α) :
    ∀ n, n ≤ l.length → (List.range n).map (fun i => l.getD i d) = l.take n := by
  intro n
  induction n with
  | zero => intro _; simp
  | succ k ih =>
    intro h
    rw [List.range_succ, List.map_append, ih (by omega)]
    have hk : k < l.length := by omega
    rw [List.take_succ]
    congr 1
    simp [List.getD_eq_getElem?_getD, List.getElem?_eq_getElem hk]

theorem crcSpecStep_lt (crc b : Nat) (hc : crc < 65536) (hb : b ≤ 1) :
    crcSpecStep crc b < 65536 := by
  unfold crcSpecStep
  split
  · rename_i hge
    have h1 : (crc - 32768) * 2 + b < 2 ^ 16 := by
      have : (2 : Nat) ^ 16 = 65536 := by norm_num
      omega
    have h2 : (4129 : Nat) < 2 ^ 16 := by norm_num
    have h3 := Nat.xor_lt_two_pow h1 h2
    have h4 : (2 : Nat) ^ 16 = 65536 := by norm_num
    omega
  · omega

theorem byteBits_le_one (b : Nat) : ∀ x ∈ byteBits b, x ≤ 1 := by
  intro x hx
  simp [byteBits, crcBitWeights] at hx
  rcases hx with h | h | h | h | h | h | h | h <;> omega

theorem foldl_crcSpecStep_lt : ∀ (bits : List Nat) (crc : Nat), crc < 65536 →
    (∀ x ∈ bits, x ≤ 1) → bits.foldl crcSpecStep crc < 65536 := by
  intro bits
  induction bits with
  | nil => intro crc h _; simpa using h
  | cons b bs ih =>
    intro crc hc hb
    simp only [List.foldl_cons]
    exact ih _ (crcSpecStep_lt crc b hc (hb b (by simp)))
      (fun x hx => hb x (by simp [hx]))

theorem crcCodeBit_eq (cc crc w : Nat) (hc : crc < 65536) :
    crcCodeBit cc crc w = crcSpecStep crc (cc / w % 2) := by
  unfold crcCodeBit crcSpecStep
  have hblt : cc / w % 2 < 2 := Nat.mod_lt _ (by norm_num)
  generalize cc / w % 2 = b at hblt ⊢
  dsimp only
  split_ifs <;> try omega
  all_goals exact congrArg (fun z => z ^^^ 4129) (by omega)

theorem foldl_crcCodeBit_eq : ∀ (ws : List Nat) (cc crc : Nat), crc < 65536 →
    ws.foldl (fun c w => crcCodeBit cc c w) crc =
      (ws.map (fun w => cc / w % 2)).foldl crcSpecStep crc := by
  intro ws
  induction ws with
  | nil => intro cc crc _; rfl
  | cons w ws ih =>
    intro cc crc hc
    simp only [List.foldl_cons, List.map_cons]
    rw [crcCodeBit_eq cc crc w hc]
    exact ih cc _ (crcSpecStep_lt crc _ hc (by omega))

theorem crcCodeByte_eq (crc cc : Nat) (hc : crc < 65536) :
    crcCodeByte crc cc = (byteBits cc).foldl crcSpecStep crc := by
  unfold crcCodeByte byteBits
  exact foldl_crcCodeBit_eq crcBitWeights cc crc hc

theorem foldl_crcCodeByte_eq : ∀ (bs : List Nat) (crc : Nat), crc < 65536 →
    bs.foldl crcCodeByte crc = (bs.flatMap byteBits).foldl crcSpecStep crc := by
  intro bs
  induction bs with
  | nil => intro crc _; rfl
  | cons b bs ih =>
    intro crc hc
    simp only [List.foldl_cons, List.flatMap_cons, List.foldl_append]
    rw [crcCodeByte_eq crc b hc]
    exact ih _ (foldl_crcSpecStep_lt (byteBits b) crc hc (byteBits_le_one b))

/-- The client's byte loop computes exactly the CRC-16/CCITT of the bytes. -/
theorem crcCodeFold_eq (bs : List Nat) :
    bs.foldl crcCodeByte 0xffff = crc16ccitt bs := by
  unfold crc16ccitt
  exact foldl_crcCodeByte_eq bs 0xffff (by norm_num)

theorem crc16ccitt_lt (bs : List Nat) : crc16ccitt bs < 65536 := by
  unfold crc16ccitt
  apply foldl_crcSpecStep_lt
  · norm_num
  · intro x hx
    rw [List.mem_flatMap] at hx
    obtain ⟨b, -, hb⟩ := hx
    exact byteBits_le_one b x hb

theorem digitChar_mem_hex : ∀ m : Nat, m < 16 → Nat.digitChar m ∈ hexDigitsList := by
  decide

theorem toDigitsCore_chars :
    ∀ (fuel n : Nat) (ds : List Char), (∀ c ∈ ds, c ∈ hexDigitsList) →
      ∀ c ∈ Nat.toDigitsCore 16 fuel n ds, c ∈ hexDigitsList := by
  intro fuel
  induction fuel with
  | zero => intro n ds hds c hc; exact hds c hc
  | succ f ih =>
    intro n ds hds c hc
    have hcons : ∀ x ∈ Nat.digitChar (n % 16) :: ds, x ∈ hexDigitsList := by
      intro x hx
      rcases List.mem_cons.mp hx with h | h
      · subst h; exact digitChar_mem_hex _ (Nat.mod_lt _ (by norm_num))
      · exact hds x h
    by_cases hz : n / 16 = 0
    · have hc2 : c ∈ Nat.digitChar (n % 16) :: ds := by
        simpa [Nat.toDigitsCore, hz] using hc
      exact hcons c hc2
    · have hc2 : c ∈ Nat.toDigitsCore 16 f (n / 16) (Nat.digitChar (n % 16) :: ds) := by
        simpa [Nat.toDigitsCore, hz] using hc
      exact ih (n / 16) _ hcons c hc2

theorem toDigitsCore_length_le :
    ∀ (k fuel n : Nat) (ds : List Char), n < 16 ^ k → 1 ≤ k → k ≤ fuel →
      (Nat.toDigitsCore 16 fuel n ds).length ≤ k + ds.length := by
  intro k
  induction k with
  | zero => intro fuel n ds _ h1 _; omega
  | succ k ih =>
    intro fuel n ds hn _ hfuel
    cases fuel with
    | zero => omega
    | succ f =>
      by_cases hz : n / 16 = 0
      · have : Nat.toDigitsCore 16 (f + 1) n ds = Nat.digitChar (n % 16) :: ds := by
          simp [Nat.toDigitsCore, hz]
        rw [this]
        simp
        omega
      · have hrec : Nat.toDigitsCore 16 (f + 1) n ds =
            Nat.toDigitsCore 16 f (n / 16) (Nat.digitChar (n % 16) :: ds) := by
          simp [Nat.toDigitsCore, hz]
        rw [hrec]
        rcases Nat.eq_zero_or_pos k with hk0 | hkpos
        · subst hk0
          have h16 : n < 16 := by simpa using hn
          omega
        · have hpow : (16 : Nat) ^ (k + 1) = 16 ^ k * 16 := by ring
          have hdiv : n / 16 < 16 ^ k := by
            rw [Nat.div_lt_iff_lt_mul (by norm_num)]
            omega
          have := ih f (n / 16) (Nat.digitChar (n % 16) :: ds) hdiv hkpos (by omega)
          simp only [List.length_cons] at this ⊢
          omega

theorem toDigits16_length_le (n : Nat) (hn : n < 65536) :
    (Nat.toDigits 16 n).length ≤ 4 := by
  unfold Nat.toDigits
  by_cases h1 : n < 16
  · have := toDigitsCore_length_le 1 (n + 1) n [] (by simpa using h1)
      (by norm_num) (by omega)
    simp only [List.length_nil] at this
    omega
  · by_cases h2 : n < 256
    · have hp : (16 : Nat) ^ 2 = 256 := by norm_num
      have := toDigitsCore_length_le 2 (n + 1) n [] (by omega) (by norm_num) (by omega)
      simp only [List.length_nil] at this
      omega
    · by_cases h3 : n < 4096
      · have hp : (16 : Nat) ^ 3 = 4096 := by norm_num
        have := toDigitsCore_length_le 3 (n + 1) n [] (by omega) (by norm_num) (by omega)
        simp only [List.length_nil] at this
        omega
      · have hp : (16 : Nat) ^ 4 = 65536 := by norm_num
        have := toDigitsCore_length_le 4 (n + 1) n [] (by omega) (by norm_num) (by omega)
        simp only [List.length_nil] at this
        omega

theorem hexRender_length (n : Nat) (hn : n < 65536) : (hexRender n).length = 4 := by
  have h := toDigits16_length_le n hn
  simp [hexRender, padStart4]
  omega

theorem hexRender_chars (n : Nat) :
    ∀ c ∈ (hexRender n).data, c ∈ hexDigitsList := by
  intro c hc
  simp only [hexRender, padStart4] at hc
  rcases List.mem_append.mp hc with h | h
  · have := List.eq_of_mem_replicate h
    subst this
    decide
  · exact toDigitsCore_chars (n + 1) n [] (by simp) c h

/-- **C1 (amended).**  For every serialized envelope whose code units are
surrogate-free (no supplementary-plane characters) and whose last `"CRC_16"`
key label is followed only by ASCII (the sentinel value `:"0x0000"}` written
by the client), the transmitted checksum — the string `calculateCRC16`
assigns to the `CRC_16` field before sending — equals the CRC-16/CCITT
value (seed 0xFFFF, polynomial 0x1021, MSB-first) of the UTF-8 byte encoding
of the serialization truncated at the byte offset immediately following the
`"CRC_16"` key label, rendered as `0x` followed by exactly four lowercase
hexadecimal digits. -/
theorem checksumSpec (pre suf : List Nat)
    (hpre : ∀ c ∈ pre, c < 65536 ∧ (c < 55296 ∨ 57344 ≤ c))
    (hsuf : ∀ c ∈ suf, c < 128)
    (hlast : jsLastIndexOf (pre ++ crcLabel ++ suf) crcLabel = (pre.length : Int)) :
    calculateCRC16 (pre ++ crcLabel ++ suf) =
      "0x" ++ hexRender (crc16ccitt (stdUtf8 (pre ++ crcLabel)))
    ∧ (hexRender (crc16ccitt (stdUtf8 (pre ++ crcLabel)))).length = 4
    ∧ ∀ c ∈ (hexRender (crc16ccitt (stdUtf8 (pre ++ crcLabel)))).data,
        c ∈ hexDigitsList := by
  have hlabel : ∀ c ∈ crcLabel, c < 128 := by decide
  have hs : ∀ c ∈ pre ++ crcLabel ++ suf, c < 65536 ∧ (c < 55296 ∨ 57344 ≤ c) := by
    intro c hcmem
    rcases List.mem_append.mp hcmem with h | h
    · rcases List.mem_append.mp h with h2 | h2
      · exact hpre c h2
      · have := hlabel c h2
        exact ⟨by omega, Or.inl (by omega)⟩
    · have := hsuf c h
      exact ⟨by omega, Or.inl (by omega)⟩
  have henc : jsUtf8Encode (pre ++ crcLabel ++ suf) = stdUtf8 pre ++ crcLabel ++ suf := by
    rw [jsUtf8Encode_eq_stdUtf8 _ hs, stdUtf8_append, stdUtf8_append,
        stdUtf8_ascii crcLabel hlabel, stdUtf8_ascii suf hsuf]
  have hlen_ge := stdUtf8_length_ge pre
  have hproj : stdUtf8 (pre ++ crcLabel) = stdUtf8 pre ++ crcLabel := by
    rw [stdUtf8_append, stdUtf8_ascii crcLabel hlabel]
  have hcalc : calculateCRC16 (pre ++ crcLabel ++ suf) =
      "0x" ++ hexRender (crc16ccitt (stdUtf8 pre ++ crcLabel)) := by
    unfold calculateCRC16
    dsimp only
    rw [hlast, henc]
    have hdl : ((pre.length : Int) + (crcLabel.length : Int) +
        (((stdUtf8 pre ++ crcLabel ++ suf).length : Int) -
          ((pre ++ crcLabel ++ suf).length : Int))).toNat =
        (stdUtf8 pre).length + 8 := by
      simp only [List.length_append, crcLabel, List.length_cons, List.length_nil]
      push_cast
      omega
    rw [hdl]
    have hlab8 : crcLabel.length = 8 := by decide
    have hle : (stdUtf8 pre).length + 8 ≤ (stdUtf8 pre ++ crcLabel ++ suf).length := by
      simp only [List.length_append]
      omega
    rw [getD_range_eq_take _ 0 _ hle]
    have htake : (stdUtf8 pre ++ crcLabel ++ suf).take ((stdUtf8 pre).length + 8) =
        stdUtf8 pre ++ crcLabel := by
      apply List.take_left'
      simp only [List.length_append]
      omega
    rw [htake, crcCodeFold_eq]
  rw [hproj]
  exact ⟨hcalc, hexRender_length _ (crc16ccitt_lt _),
    hexRender_chars _⟩

/-- **C1 (witness).**  The amended claim applied to a concrete LOGIN
envelope serialization. -/
theorem checksumSpec_witness :
    calculateCRC16 (envPre ++ crcLabel ++ envSuf) =
      "0x" ++ hexRender (crc16ccitt (stdUtf8 (envPre ++ crcLabel)))
    ∧ (hexRender (crc16ccitt (stdUtf8 (envPre ++ crcLabel)))).length = 4
    ∧ ∀ c ∈ (hexRender (crc16ccitt (stdUtf8 (envPre ++ crcLabel)))).data,
        c ∈ hexDigitsList :=
  checksumSpec envPre envSuf (by decide) (by decide) (by decide)

/-- The checksum the client actually transmits for the emoji envelope,
computed stepwise (the CRC register after each 16-byte block). -/
theorem cxCodeValue : calculateCRC16 (envPreEmoji ++ crcLabel ++ envSuf) = "0xbe05" := by
  have hutf8 : jsUtf8Encode (envPreEmoji ++ crcLabel ++ envSuf) =
      [123, 34, 83, 69, 78, 68, 69, 82, 34, 58, 34, 104, 111, 109, 101, 98, 114, 105, 100, 103, 101, 240, 159, 144, 128, 34, 44, 34, 82, 69, 67, 69, 73, 86, 69, 82, 34, 58, 34, 34, 44, 34, 67, 77, 68, 34, 58, 34, 76, 79, 71, 73, 78, 34, 44, 34, 73, 68, 34, 58, 34, 49, 50, 51, 34, 44, 34, 80, 65, 89, 76, 79, 65, 68, 95, 84, 89, 80, 69, 34, 58, 34, 85, 78, 75, 78, 79, 87, 78, 34, 44, 34, 80, 65, 89, 76, 79, 65, 68, 34, 58, 123, 34, 80, 73, 78, 34, 58, 34, 49, 50, 51, 52, 34, 125, 44, 34, 84, 73, 77, 69, 83, 84, 65, 77, 80, 34, 58, 34, 49, 55, 48, 48, 48, 48, 48, 48, 48, 48, 34, 44, 34, 67, 82, 67, 95, 49, 54, 34, 58, 34, 48, 120, 48, 48, 48, 48, 34, 125] := by rfl
  have hlast : jsLastIndexOf (envPreEmoji ++ crcLabel ++ envSuf) crcLabel = (139 : Int) := by rfl
  unfold calculateCRC16
  dsimp only
  rw [hutf8, hlast]
  have hdl : ((139 : Int) + (crcLabel.length : Int) +
      (([123, 34, 83, 69, 78, 68, 69, 82, 34, 58, 34, 104, 111, 109, 101, 98, 114, 105, 100, 103, 101, 240, 159, 144, 128, 34, 44, 34, 82, 69, 67, 69, 73, 86, 69, 82, 34, 58, 34, 34, 44, 34, 67, 77, 68, 34, 58, 34, 76, 79, 71, 73, 78, 34, 44, 34, 73, 68, 34, 58, 34, 49, 50, 51, 34, 44, 34, 80, 65, 89, 76, 79, 65, 68, 95, 84, 89, 80, 69, 34, 58, 34, 85, 78, 75, 78, 79, 87, 78, 34, 44, 34, 80, 65, 89, 76, 79, 65, 68, 34, 58, 123, 34, 80, 73, 78, 34, 58, 34, 49, 50, 51, 52, 34, 125, 44, 34, 84, 73, 77, 69, 83, 84, 65, 77, 80, 34, 58, 34, 49, 55, 48, 48, 48, 48, 48, 48, 48, 48, 34, 44, 34, 67, 82, 67, 95, 49, 54, 34, 58, 34, 48, 120, 48, 48, 48, 48, 34, 125].length : Int) -
        ((envPreEmoji ++ crcLabel ++ envSuf).length : Int))).toNat = 149 := by rfl
  rw [hdl]
  have hdata : (List.range 149).map (fun i => [123, 34, 83, 69, 78, 68, 69, 82, 34, 58, 34, 104, 111, 109, 101, 98, 114, 105, 100, 103, 101, 240, 159, 144, 128, 34, 44, 34, 82, 69, 67, 69, 73, 86, 69, 82, 34, 58, 34, 34, 44, 34, 67, 77, 68, 34, 58, 34, 76, 79, 71, 73, 78, 34, 44, 34, 73, 68, 34, 58, 34, 49, 50, 51, 34, 44, 34, 80, 65, 89, 76, 79, 65, 68, 95, 84, 89, 80, 69, 34, 58, 34, 85, 78, 75, 78, 79, 87, 78, 34, 44, 34, 80, 65, 89, 76, 79, 65, 68, 34, 58, 123, 34, 80, 73, 78, 34, 58, 34, 49, 50, 51, 52, 34, 125, 44, 34, 84, 73, 77, 69, 83, 84, 65, 77, 80, 34, 58, 34, 49, 55, 48, 48, 48, 48, 48, 48, 48, 48, 34, 44, 34, 67, 82, 67, 95, 49, 54, 34, 58, 34, 48, 120, 48, 48, 48, 48, 34, 125].getD i 0) =
      [123, 34, 83, 69, 78, 68, 69, 82, 34, 58, 34, 104, 111, 109, 101, 98, 114, 105, 100, 103, 101, 240, 159, 144, 128, 34, 44, 34, 82, 69, 67, 69, 73, 86, 69, 82, 34, 58, 34, 34, 44, 34, 67, 77, 68, 34, 58, 34, 76, 79, 71, 73, 78, 34, 44, 34, 73, 68, 34, 58, 34, 49, 50, 51, 34, 44, 34, 80, 65, 89, 76, 79, 65, 68, 95, 84, 89, 80, 69, 34, 58, 34, 85, 78, 75, 78, 79, 87, 78, 34, 44, 34, 80, 65, 89, 76, 79, 65, 68, 34, 58, 123, 34, 80, 73, 78, 34, 58, 34, 49, 50, 51, 52, 34, 125, 44, 34, 84, 73, 77, 69, 83, 84, 65, 77, 80, 34, 58, 34, 49, 55, 48, 48, 48, 48, 48, 48, 48, 48, 34, 44, 34, 67, 82, 67, 95, 49, 54, 34] := by rfl
  rw [hdata]
  have hsplit : ([123, 34, 83, 69, 78, 68, 69, 82, 34, 58, 34, 104, 111, 109, 101, 98, 114, 105, 100, 103, 101, 240, 159, 144, 128, 34, 44, 34, 82, 69, 67, 69, 73, 86, 69, 82, 34, 58, 34, 34, 44, 34, 67, 77, 68, 34, 58, 34, 76, 79, 71, 73, 78, 34, 44, 34, 73, 68, 34, 58, 34, 49, 50, 51, 34, 44, 34, 80, 65, 89, 76, 79, 65, 68, 95, 84, 89, 80, 69, 34, 58, 34, 85, 78, 75, 78, 79, 87, 78, 34, 44, 34, 80, 65, 89, 76, 79, 65, 68, 34, 58, 123, 34, 80, 73, 78, 34, 58, 34, 49, 50, 51, 52, 34, 125, 44, 34, 84, 73, 77, 69, 83, 84, 65, 77, 80, 34, 58, 34, 49, 55, 48, 48, 48, 48, 48, 48, 48, 48, 34, 44, 34, 67, 82, 67, 95, 49, 54, 34] : List Nat) =
      [123, 34, 83, 69, 78, 68, 69, 82, 34, 58, 34, 104, 111, 109, 101, 98] ++ ([114, 105, 100, 103, 101, 240, 159, 144, 128, 34, 44, 34, 82, 69, 67, 69] ++ ([73, 86, 69, 82, 34, 58, 34, 34, 44, 34, 67, 77, 68, 34, 58, 34] ++ ([76, 79, 71, 73, 78, 34, 44, 34, 73, 68, 34, 58, 34, 49, 50, 51] ++ ([34, 44, 34, 80, 65, 89, 76, 79, 65, 68, 95, 84, 89, 80, 69, 34] ++ ([58, 34, 85, 78, 75, 78, 79, 87, 78, 34, 44, 34, 80, 65, 89, 76] ++ ([79, 65, 68, 34, 58, 123, 34, 80, 73, 78, 34, 58, 34, 49, 50, 51] ++ ([52, 34, 125, 44, 34, 84, 73, 77, 69, 83, 84, 65, 77, 80, 34, 58] ++ ([34, 49, 55, 48, 48, 48, 48, 48, 48, 48, 48, 34, 44, 34, 67, 82] ++ ([67, 95, 49, 54, 34]))))))))) := by rfl
  rw [hsplit]
  simp only [List.foldl_append]
  have hs0 : List.foldl crcCodeByte 65535 [123, 34, 83, 69, 78, 68, 69, 82, 34, 58, 34, 104, 111, 109, 101, 98] = 39652 := by rfl
  rw [hs0]
  have hs1 : List.foldl crcCodeByte 39652 [114, 105, 100, 103, 101, 240, 159, 144, 128, 34, 44, 34, 82, 69, 67, 69] = 59271 := by rfl
  rw [hs1]
  have hs2 : List.foldl crcCodeByte 59271 [73, 86, 69, 82, 34, 58, 34, 34, 44, 34, 67, 77, 68, 34, 58, 34] = 48635 := by rfl
  rw [hs2]
  have hs3 : List.foldl crcCodeByte 48635 [76, 79, 71, 73, 78, 34, 44, 34, 73, 68, 34, 58, 34, 49, 50, 51] = 10423 := by rfl
  rw [hs3]
  have hs4 : List.foldl crcCodeByte 10423 [34, 44, 34, 80, 65, 89, 76, 79, 65, 68, 95, 84, 89, 80, 69, 34] = 50569 := by rfl
  rw [hs4]
  have hs5 : List.foldl crcCodeByte 50569 [58, 34, 85, 78, 75, 78, 79, 87, 78, 34, 44, 34, 80, 65, 89, 76] = 9116 := by rfl
  rw [hs5]
  have hs6 : List.foldl crcCodeByte 9116 [79, 65, 68, 34, 58, 123, 34, 80, 73, 78, 34, 58, 34, 49, 50, 51] = 42460 := by rfl
  rw [hs6]
  have hs7 : List.foldl crcCodeByte 42460 [52, 34, 125, 44, 34, 84, 73, 77, 69, 83, 84, 65, 77, 80, 34, 58] = 34885 := by rfl
  rw [hs7]
  have hs8 : List.foldl crcCodeByte 34885 [34, 49, 55, 48, 48, 48, 48, 48, 48, 48, 48, 34, 44, 34, 67, 82] = 6369 := by rfl
  rw [hs8]
  have hs9 : List.foldl crcCodeByte 6369 [67, 95, 49, 54, 34] = 48645 := by rfl
  rw [hs9]
  rfl

/-- The checksum the specification describes for the same envelope:
CRC-16/CCITT over the true UTF-8 bytes up to the end of the checksum key
label, computed stepwise. -/
theorem cxSpecValue : ("0x" ++ hexRender (crc16ccitt (trueUtf8 (envPreEmoji ++ crcLabel)))) = "0x083f" := by
  have hbytes : trueUtf8 (envPreEmoji ++ crcLabel) =
      [123, 34, 83, 69, 78, 68, 69, 82, 34, 58, 34, 104, 111, 109, 101, 98, 114, 105, 100, 103, 101, 240, 159, 152, 128, 34, 44, 34, 82, 69, 67, 69, 73, 86, 69, 82, 34, 58, 34, 34, 44, 34, 67, 77, 68, 34, 58, 34, 76, 79, 71, 73, 78, 34, 44, 34, 73, 68, 34, 58, 34, 49, 50, 51, 34, 44, 34, 80, 65, 89, 76, 79, 65, 68, 95, 84, 89, 80, 69, 34, 58, 34, 85, 78, 75, 78, 79, 87, 78, 34, 44, 34, 80, 65, 89, 76, 79, 65, 68, 34, 58, 123, 34, 80, 73, 78, 34, 58, 34, 49, 50, 51, 52, 34, 125, 44, 34, 84, 73, 77, 69, 83, 84, 65, 77, 80, 34, 58, 34, 49, 55, 48, 48, 48, 48, 48, 48, 48, 48, 34, 44, 34, 67, 82, 67, 95, 49, 54, 34] := by rfl
  rw [hbytes, ← crcCodeFold_eq]
  have hsplit : ([123, 34, 83, 69, 78, 68, 69, 82, 34, 58, 34, 104, 111, 109, 101, 98, 114, 105, 100, 103, 101, 240, 159, 152, 128, 34, 44, 34, 82, 69, 67, 69, 73, 86, 69, 82, 34, 58, 34, 34, 44, 34, 67, 77, 68, 34, 58, 34, 76, 79, 71, 73, 78, 34, 44, 34, 73, 68, 34, 58, 34, 49, 50, 51, 34, 44, 34, 80, 65, 89, 76, 79, 65, 68, 95, 84, 89, 80, 69, 34, 58, 34, 85, 78, 75, 78, 79, 87, 78, 34, 44, 34, 80, 65, 89, 76, 79, 65, 68, 34, 58, 123, 34, 80, 73, 78, 34, 58, 34, 49, 50, 51, 52, 34, 125, 44, 34, 84, 73, 77, 69, 83, 84, 65, 77, 80, 34, 58, 34, 49, 55, 48, 48, 48, 48, 48, 48, 48, 48, 34, 44, 34, 67, 82, 67, 95, 49, 54, 34] : List Nat) =
      [123, 34, 83, 69, 78, 68, 69, 82, 34, 58, 34, 104, 111, 109, 101, 98] ++ ([114, 105, 100, 103, 101, 240, 159, 152, 128, 34, 44, 34, 82, 69, 67, 69] ++ ([73, 86, 69, 82, 34, 58, 34, 34, 44, 34, 67, 77, 68, 34, 58, 34] ++ ([76, 79, 71, 73, 78, 34, 44, 34, 73, 68, 34, 58, 34, 49, 50, 51] ++ ([34, 44, 34, 80, 65, 89, 76, 79, 65, 68, 95, 84, 89, 80, 69, 34] ++ ([58, 34, 85, 78, 75, 78, 79, 87, 78, 34, 44, 34, 80, 65, 89, 76] ++ ([79, 65, 68, 34, 58, 123, 34, 80, 73, 78, 34, 58, 34, 49, 50, 51] ++ ([52, 34, 125, 44, 34, 84, 73, 77, 69, 83, 84, 65, 77, 80, 34, 58] ++ ([34, 49, 55, 48, 48, 48, 48, 48, 48, 48, 48, 34, 44, 34, 67, 82] ++ ([67, 95, 49, 54, 34]))))))))) := by rfl
  rw [hsplit]
  simp only [List.foldl_append]
  have ht0 : List.foldl crcCodeByte 65535 [123, 34, 83, 69, 78, 68, 69, 82, 34, 58, 34, 104, 111, 109, 101, 98] = 39652 := by rfl
  rw [ht0]
  have ht1 : List.foldl crcCodeByte 39652 [114, 105, 100, 103, 101, 240, 159, 152, 128, 34, 44, 34, 82, 69, 67, 69] = 29738 := by rfl
  rw [ht1]
  have ht2 : List.foldl crcCodeByte 29738 [73, 86, 69, 82, 34, 58, 34, 34, 44, 34, 67, 77, 68, 34, 58, 34] = 42432 := by rfl
  rw [ht2]
  have ht3 : List.foldl crcCodeByte 42432 [76, 79, 71, 73, 78, 34, 44, 34, 73, 68, 34, 58, 34, 49, 50, 51] = 3526 := by rfl
  rw [ht3]
  have ht4 : List.foldl crcCodeByte 3526 [34, 44, 34, 80, 65, 89, 76, 79, 65, 68, 95, 84, 89, 80, 69, 34] = 64512 := by rfl
  rw [ht4]
  have ht5 : List.foldl crcCodeByte 64512 [58, 34, 85, 78, 75, 78, 79, 87, 78, 34, 44, 34, 80, 65, 89, 76] = 8840 := by rfl
  rw [ht5]
  have ht6 : List.foldl crcCodeByte 8840 [79, 65, 68, 34, 58, 123, 34, 80, 73, 78, 34, 58, 34, 49, 50, 51] = 55488 := by rfl
  rw [ht6]
  have ht7 : List.foldl crcCodeByte 55488 [52, 34, 125, 44, 34, 84, 73, 77, 69, 83, 84, 65, 77, 80, 34, 58] = 43645 := by rfl
  rw [ht7]
  have ht8 : List.foldl crcCodeByte 43645 [34, 49, 55, 48, 48, 48, 48, 48, 48, 48, 48, 34, 44, 34, 67, 82] = 59975 := by rfl
  rw [ht8]
  have ht9 : List.foldl crcCodeByte 59975 [67, 95, 49, 54, 34] = 2111 := by rfl
  rw [ht9]
  rfl

/-- **C1 (counterexample).**  The claim as stated — for *every* envelope —
fails: on an envelope whose sender name contains the emoji U+1F600, the
transmitted checksum (`0xbe05`) differs from the CRC-16/CCITT of the true
UTF-8 byte encoding of the serialization truncated just after the `"CRC_16"`
key label (`0x083f`), because the client's encoder masks the low surrogate
with `0x3f` instead of `0x3ff` and therefore feeds the CRC the bytes of
U+1F400 instead of U+1F600. -/
theorem checksumSpec_counterexample :
    calculateCRC16 (envPreEmoji ++ crcLabel ++ envSuf) ≠
      "0x" ++ hexRender (crc16ccitt (trueUtf8 (envPreEmoji ++ crcLabel))) := by
  rw [cxCodeValue, cxSpecValue]
  decide

end Klares4
